import Mathlib

/-!
# Campus AI Assistant: embeddable chat widget

A shallow embedding of `chatbot-widget.min.js` (class `CampusAIChatWidget`),
followed by the route table of the dashboard shell `frontend/src/App.js`.

The widget object, the DOM elements it reads and writes, and the two pieces of
environment it touches (the log of `fetch` calls and the developer console)
are gathered in one record.  Every method is a pure function on that record.

Conventions of the embedding:
* An `async` method is split at its first `await` of the network: the part that
  runs synchronously in the caller (`...Start`) and the continuation that runs
  when the request settles (`...Resume`).  Running both back to back gives the
  sequential method.
* `new Date()` is an input: every `addMessage` receives the clock reading.
* A slot that holds a string, `null` or `undefined` (the keys of the
  configuration, `conversationId`, `currentLanguage`, the text of a message,
  the string fields of an answer) is a `JsValue`; a string written where a
  `JsValue` is expected stands for `JsValue.str` of it.  For the argument of
  `sendMessage` and for the remaining optional fields `none` stands for an
  absent or `undefined` value.
* The bodies of the answers are objects whose fields are absent or of the type
  the response contract gives them (an object may lack any of its fields);
  `RawBody` adds the body `null` and the body that is not JSON.
* The values of the configuration are strings, `null` or `undefined`.
* JS strings are modelled by Lean strings (sequences of code points).
* Scrolling and focus have no counterpart in the record.
-/

/-! ## JavaScript helpers -/

/-- Code points removed by `String.prototype.trim`: the ECMAScript WhiteSpace
and LineTerminator productions. -/
def isJsWhiteSpace (c : Char) : Bool :=
  let n := c.toNat
  n == 0x09 || n == 0x0A || n == 0x0B || n == 0x0C || n == 0x0D || n == 0x20 ||
  n == 0xA0 || n == 0x1680 || (0x2000 ≤ n && n ≤ 0x200A) || n == 0x2028 ||
  n == 0x2029 || n == 0x202F || n == 0x205F || n == 0x3000 || n == 0xFEFF

/-- Trimming of a list of code points at both ends. -/
def jsTrimChars (l : List Char) : List Char :=
  ((l.dropWhile isJsWhiteSpace).reverse.dropWhile isJsWhiteSpace).reverse

/-- The method `String.prototype.trim`. -/
def jsTrim (s : String) : String := String.mk (jsTrimChars s.data)

/-- The expression `a || b` for a string-or-nullish `a` and a string `b`:
`a` when it is truthy (a non-empty string), otherwise `b`. -/
def jsOrString (a : Option String) (b : String) : String :=
  match a with
  | some t => if t = "" then b else t
  | none => b

/-- The property `Response.ok`: the status is in the range 200 to 299. -/
def responseOk (status : Nat) : Bool := 200 ≤ status && status ≤ 299

/-- Truthiness of an optional boolean field (`undefined` is falsy). -/
def jsTruthyBool (b : Option Bool) : Bool := b.getD false

/-- A JS value that is a string, `null` or `undefined`. -/
inductive JsValue where
  | undefined
  | null
  | str (s : String)
deriving DecidableEq, Repr

/-- A string is used as a `JsValue` where one is expected. -/
instance : Coe String JsValue := ⟨JsValue.str⟩

/-- Truthiness of a string-or-nullish value. -/
def jsTruthyString (a : JsValue) : Bool :=
  match a with
  | JsValue.str t => t != ""
  | _ => false

/-- The expression `a || b` on string-or-nullish values. -/
def jsOrValue (a b : JsValue) : JsValue :=
  if jsTruthyString a then a else b

/-- Conversion to a string, as a template literal and a non-nullable DOM
attribute do it. -/
def jsToString (a : JsValue) : String :=
  match a with
  | JsValue.undefined => "undefined"
  | JsValue.null => "null"
  | JsValue.str t => t

/-- Conversion done by an assignment to `textContent`, a nullable DOM
attribute: `null` and `undefined` give the empty text. -/
def jsTextContent (a : JsValue) : String :=
  match a with
  | JsValue.str t => t
  | _ => ""

/-- Outcome of `await fetch(...)` followed by `await response.json()`. -/
inductive FetchOutcome (α : Type) where
  /-- the promise returned by `fetch` rejects: network failure -/
  | rejected
  /-- an HTTP answer arrived; `body` is `none` when `response.json()` rejects
  because the body is not JSON -/
  | response (status : Nat) (body : Option α)
deriving DecidableEq, Repr

/-! ## Data model -/

/-- First argument of `addMessage`. -/
inductive Sender where
  | user
  | bot
deriving DecidableEq, Repr

/-- Third argument of `addMessage`; an absent key is `none`. -/
structure Metadata where
  confidence : Option ℚ := none
  source : Option String := none
  suggestions : Option (List String) := none
  isError : Option Bool := none
deriving DecidableEq, Repr

/-- Entry pushed on `messageHistory`. -/
structure ChatMessage where
  sender : Sender
  text : JsValue
  timestamp : Nat
  metadata : Metadata
deriving DecidableEq, Repr

/-- Element appended to `#messages-container` by `addMessage`: its sender class,
the text it shows, the clock reading its time label is formatted from, and,
when the confidence line is rendered, the confidence whose percentage the
line shows. -/
structure MessageDiv where
  sender : Sender
  text : String
  time : Nat
  confidence : Option ℚ
deriving DecidableEq, Repr

/-- Element of `#suggestions-container`. -/
structure SuggestionChip where
  dataText : String
  textContent : String
deriving DecidableEq, Repr

/-- The object `this.config`. -/
structure Config where
  apiBaseUrl : JsValue
  theme : JsValue
  position : JsValue
  language : JsValue
  welcomeMessage : JsValue
deriving DecidableEq, Repr

/-- The argument of the constructor: every key is optional, `none` is a key the
object does not have, `some v` a key it has with the value `v`, which may be
`undefined` or `null`. -/
structure CallerConfig where
  apiBaseUrl : Option JsValue := none
  theme : Option JsValue := none
  position : Option JsValue := none
  language : Option JsValue := none
  welcomeMessage : Option JsValue := none
deriving DecidableEq, Repr

/-- JSON object answered by `POST /chat/message`, as the code reads it: a field
the object lacks reads as `undefined` (`none` for the optional fields). -/
structure ChatResponse where
  conversation_id : JsValue := JsValue.undefined
  response : JsValue := JsValue.undefined
  confidence : Option ℚ := none
  source : Option String := none
  suggestions : Option (List String) := none
  detected_language : JsValue := JsValue.undefined
  escalate : Option Bool := none
deriving DecidableEq, Repr

/-- JSON object answered by `POST /chat/escalate`, as the code reads it. -/
structure EscalateResponse where
  message : JsValue := JsValue.undefined
deriving DecidableEq, Repr

/-- Body sent to `/chat/message`, before `JSON.stringify`. -/
structure ChatPayload where
  message : String
  conversation_id : JsValue
  platform : String
  language : JsValue
  website_domain : String
deriving DecidableEq, Repr

/-- Body sent to `/chat/escalate`, before `JSON.stringify`. -/
structure EscalatePayload where
  conversation_id : JsValue
  reason : String
deriving DecidableEq, Repr

/-- Body of a request. -/
inductive RequestBody where
  | chat (p : ChatPayload)
  | escalate (p : EscalatePayload)
deriving DecidableEq, Repr

/-- One call of `fetch`. -/
structure Request where
  url : String
  method : String
  body : RequestBody
deriving DecidableEq, Repr

/-- The widget instance together with the DOM it owns and its environment. -/
structure CampusAIChatWidget where
  config : Config
  conversationId : JsValue
  currentLanguage : JsValue
  isOpen : Bool
  isTyping : Bool
  messageHistory : List ChatMessage
  /-- whether `#chat-window` carries the class `hidden` -/
  chatWindowHidden : Bool
  /-- whether `#unread-count` has `display: flex` (otherwise `none`) -/
  unreadBadgeShown : Bool
  /-- whether `#typing-indicator` has `display: flex` (otherwise `none`) -/
  typingIndicatorShown : Bool
  /-- value of `#message-input` -/
  inputValue : String
  /-- placeholder of `#message-input` -/
  inputPlaceholder : String
  /-- the property `disabled` of `#send-btn` -/
  sendBtnDisabled : Bool
  /-- value of `#language-select` -/
  languageSelectValue : String
  /-- text of `#welcome-text` -/
  welcomeText : String
  /-- children of `#suggestions-container` -/
  suggestionChips : List SuggestionChip
  /-- message elements appended to `#messages-container` -/
  messageDivs : List MessageDiv
  /-- the host name `window.location.hostname` -/
  hostname : String
  /-- calls of `fetch`, oldest first -/
  requests : List Request
  /-- first argument of every `console.error`, oldest first -/
  consoleErrors : List String
deriving DecidableEq, Repr

namespace CampusAIChatWidget

/-! ## Fixed texts -/

/-- Text of the bot message of the `else` branch of `sendMessage`. -/
def apiErrorText : String := "Sorry, I encountered an error. Please try again."

/-- Text of the bot message of the `catch` branch of `sendMessage`. -/
def connectionErrorText : String :=
  "Sorry, I'm having trouble connecting. Please check your internet connection and try again."

/-- Text added by `handleEscalation`. -/
def escalatedText : String :=
  "I've escalated your query to our support team. They will contact you shortly. Is there anything else I can help you with in the meantime?"

/-- Text added by `escalateToHuman` when there is no conversation. -/
def startConversationFirstText : String :=
  "Please start a conversation first before requesting human assistance."

/-- Text added by `escalateToHuman` when the request fails. -/
def escalationFailedText : String :=
  "Sorry, I couldn't escalate your request right now. Please try again later."

/-- English entry of `welcomeMessages`, also the text of `#welcome-text` in the
markup of `createWidgetHTML`. -/
def welcomeEn : String :=
  "Hello! I'm here to help with your campus queries. Ask me about fees, admissions, schedules, and more!"

/-- English entry of `placeholders`, also the placeholder in the markup. -/
def placeholderEn : String := "Type your question here..."

/-- Values of the options of `#language-select`. -/
def languageOptions : List String := ["en", "hi", "mr", "ta", "te"]

/-- Chips of the markup of `createWidgetHTML`. -/
def initialChips : List SuggestionChip :=
  [⟨"What are the admission requirements?", "Admission Requirements"⟩,
   ⟨"How much are the fees?", "Fee Information"⟩,
   ⟨"Show me the timetable", "Class Schedule"⟩,
   ⟨"Scholarship information", "Scholarships"⟩]

/-! ## Lookup tables of `changeLanguage` -/

/-- Own keys of the object literal `welcomeMessages`. -/
def welcomeMessages : List (String × String) :=
  [("en", "Hello! I'm here to help with your campus queries. Ask me about fees, admissions, schedules, and more!"),
   ("hi", "नमस्ते! मैं आपके कैंपस संबंधी प्रश्नों में सहायता के लिए यहाँ हूँ। फीस, प्रवेश, समय सारणी आदि के बारे में पूछें!"),
   ("mr", "नमस्कार! मी तुमच्या कॅम्पस संबंधित प्रश्नांमध्ये मदत करण्यासाठी येथे आहे. शुल्क, प्रवेश, वेळापत्रक इत्यादीबद्दल विचारा!"),
   ("ta", "வணக்கம்! உங்கள் கல்லூரி தொடர்பான கேள்விகளுக்கு உதவ நான் இங்கே இருக்கிறேன். கட்டணம், சேர்க்கை, அட்டவணை போன்றவற்றைப் பற்றி கேளுங்கள்!"),
   ("te", "నమస్కారం! మీ క్యాంపస్ సంబంధిత ప్రశ్నలకు సహాయం చేయడానికి నేను ఇక్కడ ఉన్నాను. ఫీజులు, అడ్మిషన్లు, షెడ్యూల్స్ గురించి అడగండి!")]

/-- Own keys of the object literal `placeholders`. -/
def placeholders : List (String × String) :=
  [("en", "Type your question here..."),
   ("hi", "यहाँ अपना प्रश्न लिखें..."),
   ("mr", "तुमचा प्रश्न येथे लिहा..."),
   ("ta", "உங்கள் கேள்வியை இங்கே தட்டச்சு செய்யுங்கள்..."),
   ("te", "మీ ప్రశ్నను ఇక్కడ టైప్ చేయండి...")]

/-- Names every object literal inherits from `Object.prototype`. -/
def objectPrototypeKeys : List String :=
  ["constructor", "toString", "toLocaleString", "valueOf", "hasOwnProperty",
   "isPrototypeOf", "propertyIsEnumerable", "__proto__", "__defineGetter__",
   "__defineSetter__", "__lookupGetter__", "__lookupSetter__"]

/-- String conversion of the member of `Object.prototype` named `key`: the
prototype object itself for `__proto__`, the native function `Object` for
`constructor`, the native function of that name otherwise. -/
def inheritedText (key : String) : String :=
  if key = "__proto__" then "[object Object]"
  else if key = "constructor" then "function Object() \x7b [native code] \x7d"
  else "function " ++ key ++ "() \x7b [native code] \x7d"

/-- The expression `table[language] || table['en']` converted to a string by
the assignment to `textContent` or `placeholder`.  Own entries are non-empty
strings; a name inherited from `Object.prototype` is truthy as well. -/
def lookupOrEn (table : List (String × String)) (language : String) : String :=
  match table.lookup language with
  | some v => v
  | none =>
    if language ∈ objectPrototypeKeys then inheritedText language
    else (table.lookup "en").getD ""

/-! ## Construction -/

/-- One key of the object literal of the constructor: `key: config.key || d`,
where a key the caller's object lacks reads as `undefined`, followed by the
spread `...config`, which overwrites the key with the caller's value whenever
the caller's object has the key, whatever the value. -/
def mergedKey (supplied : Option JsValue) (d : JsValue) : JsValue :=
  let first := jsOrValue (supplied.getD JsValue.undefined) d
  match supplied with
  | some v => v
  | none => first

/-- The constructor followed by `init`: `config` is the caller's object and
`hostname` the host name of the embedding page.  The DOM fields are those of
the markup inserted by `createWidgetHTML`. -/
def create (config : CallerConfig) (hostname : String) : CampusAIChatWidget :=
  let cfg : Config :=
    { apiBaseUrl := mergedKey config.apiBaseUrl "http://localhost:8000/api/v1"
      theme := mergedKey config.theme "light"
      position := mergedKey config.position "bottom-right"
      language := mergedKey config.language "en"
      welcomeMessage := mergedKey config.welcomeMessage JsValue.null }
  { config := cfg
    conversationId := JsValue.null
    currentLanguage := cfg.language
    isOpen := false
    isTyping := false
    messageHistory := []
    chatWindowHidden := true
    unreadBadgeShown := false
    typingIndicatorShown := false
    inputValue := ""
    inputPlaceholder := placeholderEn
    sendBtnDisabled := true
    languageSelectValue := "en"
    welcomeText := welcomeEn
    suggestionChips := initialChips
    messageDivs := []
    hostname := hostname
    requests := []
    consoleErrors := [] }

/-! ## Opening and closing -/

/-- The method `hideUnreadBadge`. -/
def hideUnreadBadge (w : CampusAIChatWidget) : CampusAIChatWidget :=
  { w with unreadBadgeShown := false }

/-- The method `showUnreadBadge`. -/
def showUnreadBadge (w : CampusAIChatWidget) : CampusAIChatWidget :=
  { w with unreadBadgeShown := true }

/-- The method `closeWidget`. -/
def closeWidget (w : CampusAIChatWidget) : CampusAIChatWidget :=
  { w with chatWindowHidden := true, isOpen := false }

/-- The method `toggleWidget`. -/
def toggleWidget (w : CampusAIChatWidget) : CampusAIChatWidget :=
  if w.isOpen then w.closeWidget
  else hideUnreadBadge { w with chatWindowHidden := false, isOpen := true }

/-- The method `minimizeWidget`. -/
def minimizeWidget (w : CampusAIChatWidget) : CampusAIChatWidget :=
  w.closeWidget.showUnreadBadge

/-- The public method `open`. -/
def openWidget (w : CampusAIChatWidget) : CampusAIChatWidget :=
  if !w.isOpen then w.toggleWidget else w

/-- The public method `close`. -/
def close (w : CampusAIChatWidget) : CampusAIChatWidget :=
  if w.isOpen then w.closeWidget else w

/-- The `keydown` listener of `setupKeyboardShortcuts`. -/
def onKeydown (w : CampusAIChatWidget) (altKey : Bool) (key : String) :
    CampusAIChatWidget :=
  let w1 := if altKey && key == "c" then w.toggleWidget else w
  if key == "Escape" && w1.isOpen then w1.closeWidget else w1

/-- The `input` listener of the text field, run after the user changed the
content of the field to `value`. -/
def onInput (w : CampusAIChatWidget) (value : String) : CampusAIChatWidget :=
  { w with inputValue := value, sendBtnDisabled := jsTrim value == "" }

/-! ## Messages -/

/-- The method `updateSuggestions`. -/
def updateSuggestions (w : CampusAIChatWidget) (suggestions : List String) :
    CampusAIChatWidget :=
  { w with suggestionChips := suggestions.map fun s => SuggestionChip.mk s s }

/-- The confidence line of a message element: rendered when
`metadata.confidence` is truthy (a number other than zero).  The line shows
`Math.round(confidence * 100)`, which the browser computes on doubles; the
element keeps the confidence itself. -/
def confidenceLine (c : Option ℚ) : Option ℚ :=
  match c with
  | some q => if q = 0 then none else some q
  | none => none

/-- The method `addMessage`; `now` is the value of `new Date()`.  A call that
omits the third argument passes the empty object. -/
def addMessage (w : CampusAIChatWidget) (now : Nat) (sender : Sender)
    (text : JsValue) (metadata : Metadata) : CampusAIChatWidget :=
  let w1 := { w with messageDivs :=
    w.messageDivs ++
      [MessageDiv.mk sender (jsTextContent text) now (confidenceLine metadata.confidence)] }
  let w2 :=
    match metadata.suggestions with
    | some l => if l.length > 0 then w1.updateSuggestions l else w1
    | none => w1
  { w2 with messageHistory := w2.messageHistory ++ [ChatMessage.mk sender text now metadata] }

/-- The method `showTypingIndicator`. -/
def showTypingIndicator (w : CampusAIChatWidget) : CampusAIChatWidget :=
  { w with typingIndicatorShown := true, isTyping := true }

/-- The method `hideTypingIndicator`. -/
def hideTypingIndicator (w : CampusAIChatWidget) : CampusAIChatWidget :=
  { w with typingIndicatorShown := false, isTyping := false }

/-- The method `callAPI`: one call of `fetch` on the template literal made of
`apiBaseUrl` and `endpoint`. -/
def callAPI (w : CampusAIChatWidget) (endpoint : String) (method : String)
    (body : RequestBody) : CampusAIChatWidget :=
  { w with requests :=
      w.requests ++ [Request.mk (jsToString w.config.apiBaseUrl ++ endpoint) method body] }

/-- The method `handleEscalation`. -/
def handleEscalation (w : CampusAIChatWidget) (now : Nat) : CampusAIChatWidget :=
  w.addMessage now Sender.bot escalatedText {}

/-- Assignment to the value of `#language-select`: the value is converted to a
string, and a string that is the value of no option leaves the control
without selection, whose value is empty. -/
def setLanguageSelect (w : CampusAIChatWidget) (v : JsValue) :
    CampusAIChatWidget :=
  { w with languageSelectValue :=
      if jsToString v ∈ languageOptions then jsToString v else "" }

/-- The text `sendMessage` works on: `text || messageInput.value.trim()`. -/
def resolveMessage (w : CampusAIChatWidget) (text : Option String) : String :=
  jsOrString text (jsTrim w.inputValue)

/-- The method `sendMessage` up to its `await` of `callAPI`: everything that
runs synchronously in the caller.  `now` is the clock reading of the call. -/
def sendMessageStart (w : CampusAIChatWidget) (now : Nat) (text : Option String) :
    CampusAIChatWidget :=
  let message := resolveMessage w text
  if message = "" then w
  else
    let w1 := { w with inputValue := "", sendBtnDisabled := true }
    let w2 := w1.addMessage now Sender.user message {}
    let w3 := w2.showTypingIndicator
    w3.callAPI "/chat/message" "POST"
      (RequestBody.chat
        { message := message
          conversation_id := w3.conversationId
          platform := "web"
          language := w3.currentLanguage
          website_domain := w3.hostname })

/-- The branch `if (response.ok)` of `sendMessage`; `now` and `now2` are the
clock readings of the bot message and of the escalation message. -/
def sendMessageSuccess (w : CampusAIChatWidget) (data : ChatResponse)
    (now now2 : Nat) : CampusAIChatWidget :=
  let w1 := { w with conversationId := data.conversation_id }
  let w2 := w1.addMessage now Sender.bot data.response
    { confidence := data.confidence, source := data.source,
      suggestions := data.suggestions }
  let w3 :=
    if data.detected_language ≠ w2.currentLanguage then
      setLanguageSelect { w2 with currentLanguage := data.detected_language }
        data.detected_language
    else w2
  if jsTruthyBool data.escalate then w3.handleEscalation now2 else w3

/-- The `catch` block of `sendMessage`. -/
def sendMessageCatch (w : CampusAIChatWidget) (now : Nat) : CampusAIChatWidget :=
  let w1 := { w with consoleErrors := w.consoleErrors ++ ["Chat API Error:"] }
  w1.addMessage now Sender.bot connectionErrorText { isError := some true }

/-- The method `sendMessage` from the moment the request settles: the rest of
the `try` block, the `catch` block and the `finally` block. -/
def sendMessageResume (w : CampusAIChatWidget) (outcome : FetchOutcome ChatResponse)
    (now now2 : Nat) : CampusAIChatWidget :=
  let w1 :=
    match outcome with
    | FetchOutcome.rejected => w.sendMessageCatch now
    | FetchOutcome.response _ none => w.sendMessageCatch now
    | FetchOutcome.response status (some data) =>
      if responseOk status then w.sendMessageSuccess data now now2
      else w.addMessage now Sender.bot apiErrorText { isError := some true }
  w1.hideTypingIndicator

/-- The method `sendMessage` run to completion with no other event in between:
`now0` is the clock reading of the call, `outcome` what the network gave back,
`now1` and `now2` the clock readings after the request settled. -/
def sendMessage (w : CampusAIChatWidget) (text : Option String) (now0 : Nat)
    (outcome : FetchOutcome ChatResponse) (now1 now2 : Nat) : CampusAIChatWidget :=
  if resolveMessage w text = "" then w.sendMessageStart now0 text
  else (w.sendMessageStart now0 text).sendMessageResume outcome now1 now2

/-! ## Language -/

/-- The method `loadLanguage`, whose body is empty. -/
def loadLanguage (w : CampusAIChatWidget) (_language : String) : CampusAIChatWidget := w

/-- The method `changeLanguage`. -/
def changeLanguage (w : CampusAIChatWidget) (language : String) : CampusAIChatWidget :=
  let w1 := { w with currentLanguage := JsValue.str language }
  let w2 := w1.loadLanguage language
  { w2 with
    welcomeText := lookupOrEn welcomeMessages language
    inputPlaceholder := lookupOrEn placeholders language }

/-- The method `setLanguage`. -/
def setLanguage (w : CampusAIChatWidget) (language : String) : CampusAIChatWidget :=
  w.changeLanguage language

/-- The `change` listener of `#language-select`, run after the user picked the
option whose value is `value`. -/
def onLanguageSelect (w : CampusAIChatWidget) (value : String) : CampusAIChatWidget :=
  changeLanguage { w with languageSelectValue := value } value

/-! ## Escalation -/

/-- The method `escalateToHuman` up to its `await` of `callAPI`. -/
def escalateToHumanStart (w : CampusAIChatWidget) (now : Nat) : CampusAIChatWidget :=
  if !jsTruthyString w.conversationId then
    w.addMessage now Sender.bot startConversationFirstText {}
  else
    w.callAPI "/chat/escalate" "POST"
      (RequestBody.escalate
        { conversation_id := w.conversationId
          reason := "User requested human assistance" })

/-- The method `escalateToHuman` from the moment the request settles. -/
def escalateToHumanResume (w : CampusAIChatWidget)
    (outcome : FetchOutcome EscalateResponse) (now : Nat) : CampusAIChatWidget :=
  match outcome with
  | FetchOutcome.response status (some data) =>
    if responseOk status then w.addMessage now Sender.bot data.message {}
    else w.addMessage now Sender.bot escalationFailedText {}
  | _ =>
    addMessage { w with consoleErrors := w.consoleErrors ++ ["Escalation Error:"] }
      now Sender.bot escalationFailedText {}

/-- The method `escalateToHuman` run to completion with no other event in
between. -/
def escalateToHuman (w : CampusAIChatWidget) (now0 : Nat)
    (outcome : FetchOutcome EscalateResponse) (now1 : Nat) : CampusAIChatWidget :=
  if !jsTruthyString w.conversationId then w.escalateToHumanStart now0
  else (w.escalateToHumanStart now0).escalateToHumanResume outcome now1

/-! ## Remaining public methods -/

/-- The method `sendPredefinedMessage` up to its `setTimeout`; the timer later
runs `sendMessage(message)`. -/
def sendPredefinedMessageStart (w : CampusAIChatWidget) : CampusAIChatWidget :=
  if !w.isOpen then w.openWidget else w

/-- The method `getConversationHistory`. -/
def getConversationHistory (w : CampusAIChatWidget) : List ChatMessage :=
  w.messageHistory

/-! ## Sessions -/

/-- What can happen to a widget between two turns of the event loop: a call of
a method (for an `async` method, its synchronous part), a listener, or the
settling of a request that is in flight. -/
inductive Event where
  | sendMessage (now : Nat) (text : Option String)
  | chatSettled (outcome : FetchOutcome ChatResponse) (now now2 : Nat)
  | escalateToHuman (now : Nat)
  | escalateSettled (outcome : FetchOutcome EscalateResponse) (now : Nat)
  | changeLanguage (language : String)
  | languageSelect (value : String)
  | openWidget
  | close
  | toggleWidget
  | closeWidget
  | minimizeWidget
  | keydown (altKey : Bool) (key : String)
  | input (value : String)
  | sendPredefinedMessage
deriving DecidableEq, Repr

/-- Effect of one event. -/
def step (w : CampusAIChatWidget) (e : Event) : CampusAIChatWidget :=
  match e with
  | Event.sendMessage now text => w.sendMessageStart now text
  | Event.chatSettled outcome now now2 => w.sendMessageResume outcome now now2
  | Event.escalateToHuman now => w.escalateToHumanStart now
  | Event.escalateSettled outcome now => w.escalateToHumanResume outcome now
  | Event.changeLanguage language => w.changeLanguage language
  | Event.languageSelect value => w.onLanguageSelect value
  | Event.openWidget => w.openWidget
  | Event.close => w.close
  | Event.toggleWidget => w.toggleWidget
  | Event.closeWidget => w.closeWidget
  | Event.minimizeWidget => w.minimizeWidget
  | Event.keydown altKey key => w.onKeydown altKey key
  | Event.input value => w.onInput value
  | Event.sendPredefinedMessage => w.sendPredefinedMessageStart

/-- Effect of a sequence of events, oldest first. -/
def run (w : CampusAIChatWidget) (es : List Event) : CampusAIChatWidget :=
  es.foldl step w

/-- An event that is the settling of a chat request with a 2xx status and a
body that parsed: the only event that runs the branch `if (response.ok)`. -/
def Event.chatSuccess (e : Event) : Option ChatResponse :=
  match e with
  | Event.chatSettled (FetchOutcome.response status (some data)) _ _ =>
    if responseOk status then some data else none
  | _ => none

/-- The `conversation_id` a request carries. -/
def requestConversationId (r : Request) : JsValue :=
  match r.body with
  | RequestBody.chat p => p.conversation_id
  | RequestBody.escalate p => p.conversation_id

/-! ## Vocabulary of the statements -/

/-- The request `sendMessage` issues from the state `w` for the text `message`. -/
def chatRequest (w : CampusAIChatWidget) (message : String) : Request :=
  { url := jsToString w.config.apiBaseUrl ++ "/chat/message"
    method := "POST"
    body := RequestBody.chat
      { message := message
        conversation_id := w.conversationId
        platform := "web"
        language := w.currentLanguage
        website_domain := w.hostname } }

/-- Whether the outcome of a chat request makes `sendMessage` call
`handleEscalation`: a 2xx status, a body that parsed, a truthy `escalate`. -/
def escalates (outcome : FetchOutcome ChatResponse) : Bool :=
  match outcome with
  | FetchOutcome.response status (some data) =>
    responseOk status && jsTruthyBool data.escalate
  | _ => false

/-- The `click` listener of the document for a target that is a suggestion
chip: `sendMessage(e.target.dataset.text)`, here up to the `await`. -/
def onChipClick (w : CampusAIChatWidget) (now : Nat) (chip : SuggestionChip) :
    CampusAIChatWidget :=
  w.sendMessageStart now (some chip.dataText)

/-! ## Exceptions

The methods above fold the `catch` blocks into their case analysis.  The
definitions of this section keep the exceptions explicit: a step of a `try`
block either yields a value or throws, and the value of an `async` method is
`Except.ok` when its promise is fulfilled and `Except.error` when it is
rejected. -/

/-- Exceptions the `try` blocks can meet. -/
inductive JsError where
  /-- the promise of `fetch` rejects -/
  | networkError
  /-- the promise of `response.json()` rejects: the body is not JSON -/
  | syntaxError
  /-- a property is read from `null` -/
  | typeError
deriving DecidableEq, Repr

/-- Body of an HTTP answer as `response.json()` meets it: text that is not
JSON, the JSON value `null`, or an object, which may lack any field of the
response contract. -/
inductive RawBody (α : Type) where
  | notJson
  | jsonNull
  | object (data : α)
deriving DecidableEq, Repr

/-- What the network gives back to a request. -/
inductive RawOutcome (α : Type) where
  | rejected
  | response (status : Nat) (body : RawBody α)
deriving DecidableEq, Repr

/-- The outcomes of `FetchOutcome` among the raw outcomes. -/
def toRaw {α : Type} (o : FetchOutcome α) : RawOutcome α :=
  match o with
  | FetchOutcome.rejected => RawOutcome.rejected
  | FetchOutcome.response status none => RawOutcome.response status RawBody.notJson
  | FetchOutcome.response status (some data) =>
    RawOutcome.response status (RawBody.object data)

/-- The expression `await this.callAPI(...)` once the request has settled: the
status of the answer and its body, or the rejection of `fetch`. -/
def awaitFetch {α : Type} (o : RawOutcome α) : Except JsError (Nat × RawBody α) :=
  match o with
  | RawOutcome.rejected => Except.error JsError.networkError
  | RawOutcome.response status body => Except.ok (status, body)

/-- The expression `await response.json()`; `none` is the value `null`. -/
def awaitJson {α : Type} (body : RawBody α) : Except JsError (Option α) :=
  match body with
  | RawBody.notJson => Except.error JsError.syntaxError
  | RawBody.jsonNull => Except.ok none
  | RawBody.object data => Except.ok (some data)

/-- Reading a property of the parsed body: a `TypeError` on `null`. -/
def readFields {α : Type} (data : Option α) : Except JsError α :=
  match data with
  | none => Except.error JsError.typeError
  | some d => Except.ok d

/-- The `try` block of `sendMessage` from the moment the request settles.  The
first statement of the 2xx branch reads `data.conversation_id` before it
writes anything, so every exception leaves the state as it was. -/
def sendMessageTry (w : CampusAIChatWidget) (o : RawOutcome ChatResponse)
    (now now2 : Nat) : Except JsError CampusAIChatWidget :=
  match awaitFetch o with
  | Except.error err => Except.error err
  | Except.ok (status, body) =>
    match awaitJson body with
    | Except.error err => Except.error err
    | Except.ok data =>
      if responseOk status then
        match readFields data with
        | Except.error err => Except.error err
        | Except.ok d => Except.ok (w.sendMessageSuccess d now now2)
      else
        Except.ok (w.addMessage now Sender.bot apiErrorText { isError := some true })

/-- The statement `try ... catch ... finally` of `sendMessage`: the `catch`
block handles every exception of the `try` block, and the `finally` block
runs in both cases. -/
def sendMessageSettle (w : CampusAIChatWidget) (o : RawOutcome ChatResponse)
    (now now2 : Nat) : Except JsError CampusAIChatWidget :=
  let afterCatch : Except JsError CampusAIChatWidget :=
    match sendMessageTry w o now now2 with
    | Except.ok w1 => Except.ok w1
    | Except.error _ => Except.ok (w.sendMessageCatch now)
  match afterCatch with
  | Except.ok w2 => Except.ok w2.hideTypingIndicator
  | Except.error err => Except.error err

/-- The `async` method `sendMessage` as its caller sees it: the state when the
promise settles, `Except.error` being a rejected promise. -/
def sendMessageAsync (w : CampusAIChatWidget) (text : Option String) (now0 : Nat)
    (o : RawOutcome ChatResponse) (now1 now2 : Nat) :
    Except JsError CampusAIChatWidget :=
  if resolveMessage w text = "" then Except.ok (w.sendMessageStart now0 text)
  else sendMessageSettle (w.sendMessageStart now0 text) o now1 now2

/-- The `try` block of `escalateToHuman` from the moment the request settles. -/
def escalateToHumanTry (w : CampusAIChatWidget) (o : RawOutcome EscalateResponse)
    (now : Nat) : Except JsError CampusAIChatWidget :=
  match awaitFetch o with
  | Except.error err => Except.error err
  | Except.ok (status, body) =>
    match awaitJson body with
    | Except.error err => Except.error err
    | Except.ok data =>
      if responseOk status then
        match readFields data with
        | Except.error err => Except.error err
        | Except.ok d => Except.ok (w.addMessage now Sender.bot d.message {})
      else Except.ok (w.addMessage now Sender.bot escalationFailedText {})

/-- The `catch` block of `escalateToHuman`. -/
def escalateToHumanCatch (w : CampusAIChatWidget) (now : Nat) : CampusAIChatWidget :=
  addMessage { w with consoleErrors := w.consoleErrors ++ ["Escalation Error:"] }
    now Sender.bot escalationFailedText {}

/-- The `async` method `escalateToHuman` as its caller sees it. -/
def escalateToHumanAsync (w : CampusAIChatWidget) (now0 : Nat)
    (o : RawOutcome EscalateResponse) (now1 : Nat) :
    Except JsError CampusAIChatWidget :=
  if !jsTruthyString w.conversationId then Except.ok (w.escalateToHumanStart now0)
  else
    match escalateToHumanTry (w.escalateToHumanStart now0) o now1 with
    | Except.ok w1 => Except.ok w1
    | Except.error _ => Except.ok ((w.escalateToHumanStart now0).escalateToHumanCatch now1)

/-- Whether a raw outcome is a 2xx answer whose body is an object of the
contract: the outcomes that are not failures. -/
def RawOutcome.succeeded {α : Type} (o : RawOutcome α) : Bool :=
  match o with
  | RawOutcome.response status (RawBody.object _) => responseOk status
  | _ => false

/-! ## Requests in flight -/

/-- Number of chat requests in flight after the event `e`, when `n` were in
flight before it in the state `w`: a `sendMessage` that sends anything issues
one request, the settling of a chat request resolves one. -/
def chatInFlightStep (w : CampusAIChatWidget) (n : Nat) (e : Event) : Nat :=
  match e with
  | Event.sendMessage _ text => if resolveMessage w text = "" then n else n + 1
  | Event.chatSettled _ _ _ => n - 1
  | _ => n

/-- Number of chat requests in flight after the events `es`, oldest first. -/
def chatInFlight (w : CampusAIChatWidget) (n : Nat) (es : List Event) : Nat :=
  match es with
  | [] => n
  | e :: rest => chatInFlight (step w e) (chatInFlightStep w n e) rest

/-- Whether a sequence of events is an interleaving of calls and completions:
a chat request settles only while one is in flight. -/
def interleaving (w : CampusAIChatWidget) (n : Nat) (es : List Event) : Bool :=
  match es with
  | [] => true
  | e :: rest =>
    (match e with
      | Event.chatSettled _ _ _ => decide (0 < n)
      | _ => true) &&
    interleaving (step w e) (chatInFlightStep w n e) rest

/-- Whether at most one chat request is in flight at every moment of the
sequence `es`. -/
def oneAtATime (w : CampusAIChatWidget) (n : Nat) (es : List Event) : Bool :=
  match es with
  | [] => decide (n ≤ 1)
  | e :: rest => decide (n ≤ 1) && oneAtATime (step w e) (chatInFlightStep w n e) rest

end CampusAIChatWidget

/-! ## Dashboard shell: `frontend/src/App.js`

The components `Login`, `Dashboard`, `FAQManagement`, `Conversations`,
`Analytics`, `Settings` and `Layout` are imported by `App.js`; they are kept as
constructors.  The value `isAuthenticated` that `useAuth()` reads from the
context is a parameter. -/

namespace App

/-- React elements `App.js` builds. -/
inductive Element where
  | Login
  | Dashboard
  | FAQManagement
  | Conversations
  | Analytics
  | Settings
  /-- the element `<Layout>children</Layout>` -/
  | Layout (children : Element)
  /-- the element `<Navigate to=target />` of the router: a redirect -/
  | Navigate (target : String)
deriving DecidableEq, Repr

/-- The component `ProtectedRoute`; `isAuthenticated` is what `useAuth()`
returns. -/
def ProtectedRoute (isAuthenticated : Bool) (children : Element) : Element :=
  if isAuthenticated then children else Element.Navigate "/login"

/-- The children of `<Routes>` in `App`, in the order of the source: the path
of each `<Route>` and what its `element` renders to. -/
def routes (isAuthenticated : Bool) : List (String × Element) :=
  [("/login", Element.Login),
   ("/", ProtectedRoute isAuthenticated (Element.Layout Element.Dashboard)),
   ("/faqs", ProtectedRoute isAuthenticated (Element.Layout Element.FAQManagement)),
   ("/conversations", ProtectedRoute isAuthenticated (Element.Layout Element.Conversations)),
   ("/analytics", ProtectedRoute isAuthenticated (Element.Layout Element.Analytics)),
   ("/settings", ProtectedRoute isAuthenticated (Element.Layout Element.Settings))]

/-- What `<Routes>` renders at a location that is literally one of the declared
paths: the element of the route declared with that path.  The declared paths
are distinct, so the ranking of the router plays no part.  The router also
matches a location that differs from a declared path by case or by a trailing
slash; such locations are not covered, the lookup gives `none` for them. -/
def render (isAuthenticated : Bool) (path : String) : Option Element :=
  (routes isAuthenticated).lookup path

end App

/-! ## Lemmas on trimming -/

theorem jsTrimChars_eq_nil_iff (l : List Char) :
    jsTrimChars l = [] ↔ ∀ c ∈ l, isJsWhiteSpace c = true := by
  unfold jsTrimChars
  rw [List.reverse_eq_nil_iff, List.dropWhile_eq_nil_iff]
  constructor
  · intro h
    have hnil : l.dropWhile isJsWhiteSpace = [] := by
      cases hd : l.dropWhile isJsWhiteSpace with
      | nil => rfl
      | cons a t =>
        exfalso
        have h1 : isJsWhiteSpace a = true := h a (by rw [hd]; simp)
        have h2 := List.head_dropWhile_not isJsWhiteSpace l (by rw [hd]; simp)
        simp [hd] at h2
        rw [h1] at h2
        exact Bool.noConfusion h2
    exact List.dropWhile_eq_nil_iff.mp hnil
  · intro h c hc
    have hnil : l.dropWhile isJsWhiteSpace = [] := List.dropWhile_eq_nil_iff.mpr h
    rw [hnil] at hc
    simp at hc

theorem jsTrim_eq_empty_iff (s : String) :
    jsTrim s = "" ↔ ∀ c ∈ s.data, isJsWhiteSpace c = true := by
  rw [← jsTrimChars_eq_nil_iff]
  unfold jsTrim
  constructor
  · intro h
    have := congrArg String.data h
    simpa using this
  · intro h
    rw [h]

namespace CampusAIChatWidget

/-! ## Lemmas on single methods -/

theorem resolveMessage_some (w : CampusAIChatWidget) (t : String) (ht : t ≠ "") :
    resolveMessage w (some t) = t := by
  simp [resolveMessage, jsOrString, ht]

theorem resolveMessage_blank (w : CampusAIChatWidget) (text : Option String)
    (htext : text = none ∨ text = some "")
    (hfield : ∀ c ∈ w.inputValue.data, isJsWhiteSpace c = true) :
    resolveMessage w text = "" := by
  have h := (jsTrim_eq_empty_iff w.inputValue).mpr hfield
  rcases htext with rfl | rfl <;> simp [resolveMessage, jsOrString, h]

@[simp]
theorem addMessage_messageHistory (w : CampusAIChatWidget) (now : Nat)
    (sender : Sender) (text : JsValue) (m : Metadata) :
    (w.addMessage now sender text m).messageHistory =
      w.messageHistory ++ [ChatMessage.mk sender text now m] := by
  unfold addMessage
  rcases hm : m.suggestions with _ | l
  · simp
  · by_cases hl : l.length > 0 <;> simp [hl, updateSuggestions]

@[simp]
theorem addMessage_conversationId (w : CampusAIChatWidget) (now : Nat)
    (sender : Sender) (text : JsValue) (m : Metadata) :
    (w.addMessage now sender text m).conversationId = w.conversationId := by
  unfold addMessage
  rcases hm : m.suggestions with _ | l
  · simp
  · by_cases hl : l.length > 0 <;> simp [hl, updateSuggestions]

@[simp]
theorem addMessage_currentLanguage (w : CampusAIChatWidget) (now : Nat)
    (sender : Sender) (text : JsValue) (m : Metadata) :
    (w.addMessage now sender text m).currentLanguage = w.currentLanguage := by
  unfold addMessage
  rcases hm : m.suggestions with _ | l
  · simp
  · by_cases hl : l.length > 0 <;> simp [hl, updateSuggestions]

@[simp]
theorem addMessage_requests (w : CampusAIChatWidget) (now : Nat)
    (sender : Sender) (text : JsValue) (m : Metadata) :
    (w.addMessage now sender text m).requests = w.requests := by
  unfold addMessage
  rcases hm : m.suggestions with _ | l
  · simp
  · by_cases hl : l.length > 0 <;> simp [hl, updateSuggestions]

@[simp]
theorem addMessage_hostname (w : CampusAIChatWidget) (now : Nat)
    (sender : Sender) (text : JsValue) (m : Metadata) :
    (w.addMessage now sender text m).hostname = w.hostname := by
  unfold addMessage
  rcases hm : m.suggestions with _ | l
  · simp
  · by_cases hl : l.length > 0 <;> simp [hl, updateSuggestions]

@[simp]
theorem addMessage_config (w : CampusAIChatWidget) (now : Nat)
    (sender : Sender) (text : JsValue) (m : Metadata) :
    (w.addMessage now sender text m).config = w.config := by
  unfold addMessage
  rcases hm : m.suggestions with _ | l
  · simp
  · by_cases hl : l.length > 0 <;> simp [hl, updateSuggestions]

theorem sendMessageStart_empty (w : CampusAIChatWidget) (now : Nat)
    (text : Option String) (h : resolveMessage w text = "") :
    w.sendMessageStart now text = w := by
  simp [sendMessageStart, h]

theorem sendMessageStart_messageHistory (w : CampusAIChatWidget) (now : Nat)
    (text : Option String) (h : resolveMessage w text ≠ "") :
    (w.sendMessageStart now text).messageHistory =
      w.messageHistory ++ [ChatMessage.mk Sender.user (resolveMessage w text) now {}] := by
  simp [sendMessageStart, h, callAPI, showTypingIndicator]

theorem sendMessageStart_requests (w : CampusAIChatWidget) (now : Nat)
    (text : Option String) (h : resolveMessage w text ≠ "") :
    (w.sendMessageStart now text).requests =
      w.requests ++ [chatRequest w (resolveMessage w text)] := by
  simp [sendMessageStart, h, callAPI, showTypingIndicator, chatRequest]

@[simp]
theorem sendMessageStart_conversationId (w : CampusAIChatWidget) (now : Nat)
    (text : Option String) :
    (w.sendMessageStart now text).conversationId = w.conversationId := by
  unfold sendMessageStart
  by_cases h : resolveMessage w text = "" <;> simp [h, callAPI, showTypingIndicator]

@[simp]
theorem sendMessageStart_currentLanguage (w : CampusAIChatWidget) (now : Nat)
    (text : Option String) :
    (w.sendMessageStart now text).currentLanguage = w.currentLanguage := by
  unfold sendMessageStart
  by_cases h : resolveMessage w text = "" <;> simp [h, callAPI, showTypingIndicator]

theorem sendMessageSuccess_messageHistory (w : CampusAIChatWidget)
    (data : ChatResponse) (now now2 : Nat) :
    (w.sendMessageSuccess data now now2).messageHistory =
      w.messageHistory ++
        ChatMessage.mk Sender.bot data.response now
          { confidence := data.confidence, source := data.source,
            suggestions := data.suggestions } ::
        (if jsTruthyBool data.escalate then
          [ChatMessage.mk Sender.bot escalatedText now2 {}] else []) := by
  unfold sendMessageSuccess
  by_cases hl : data.detected_language = w.currentLanguage <;>
    by_cases he : jsTruthyBool data.escalate = true <;>
    simp [hl, he, handleEscalation, setLanguageSelect]

theorem sendMessageSuccess_conversationId (w : CampusAIChatWidget)
    (data : ChatResponse) (now now2 : Nat) :
    (w.sendMessageSuccess data now now2).conversationId = data.conversation_id := by
  unfold sendMessageSuccess
  by_cases hl : data.detected_language = w.currentLanguage <;>
    by_cases he : jsTruthyBool data.escalate = true <;>
    simp [hl, he, handleEscalation, setLanguageSelect]

theorem sendMessageSuccess_currentLanguage (w : CampusAIChatWidget)
    (data : ChatResponse) (now now2 : Nat) :
    (w.sendMessageSuccess data now now2).currentLanguage = data.detected_language := by
  unfold sendMessageSuccess
  by_cases hl : data.detected_language = w.currentLanguage <;>
    by_cases he : jsTruthyBool data.escalate = true <;>
    simp [hl, he, handleEscalation, setLanguageSelect]

theorem sendMessageSuccess_requests (w : CampusAIChatWidget)
    (data : ChatResponse) (now now2 : Nat) :
    (w.sendMessageSuccess data now now2).requests = w.requests := by
  unfold sendMessageSuccess
  by_cases hl : data.detected_language = w.currentLanguage <;>
    by_cases he : jsTruthyBool data.escalate = true <;>
    simp [hl, he, handleEscalation, setLanguageSelect]

theorem sendMessageSuccess_hostname_config (w : CampusAIChatWidget)
    (data : ChatResponse) (now now2 : Nat) :
    (w.sendMessageSuccess data now now2).hostname = w.hostname ∧
    (w.sendMessageSuccess data now now2).config = w.config := by
  unfold sendMessageSuccess
  by_cases hl : data.detected_language = w.currentLanguage <;>
    by_cases he : jsTruthyBool data.escalate = true <;>
    simp [hl, he, handleEscalation, setLanguageSelect]

theorem sendMessageCatch_messageHistory (w : CampusAIChatWidget) (now : Nat) :
    (w.sendMessageCatch now).messageHistory =
      w.messageHistory ++
        [ChatMessage.mk Sender.bot connectionErrorText now { isError := some true }] := by
  simp [sendMessageCatch]

theorem sendMessageResume_rejected (w : CampusAIChatWidget) (now now2 : Nat) :
    w.sendMessageResume FetchOutcome.rejected now now2 =
      (w.sendMessageCatch now).hideTypingIndicator := by
  simp [sendMessageResume]

theorem sendMessageResume_unparsable (w : CampusAIChatWidget) (status now now2 : Nat) :
    w.sendMessageResume (FetchOutcome.response status none) now now2 =
      (w.sendMessageCatch now).hideTypingIndicator := by
  simp [sendMessageResume]

theorem sendMessageResume_ok (w : CampusAIChatWidget) (status : Nat)
    (data : ChatResponse) (now now2 : Nat) (hok : responseOk status = true) :
    w.sendMessageResume (FetchOutcome.response status (some data)) now now2 =
      (w.sendMessageSuccess data now now2).hideTypingIndicator := by
  simp [sendMessageResume, hok]

theorem sendMessageResume_notOk (w : CampusAIChatWidget) (status : Nat)
    (data : ChatResponse) (now now2 : Nat) (hok : responseOk status = false) :
    w.sendMessageResume (FetchOutcome.response status (some data)) now now2 =
      (w.addMessage now Sender.bot apiErrorText { isError := some true }).hideTypingIndicator := by
  simp [sendMessageResume, hok]

theorem sendMessage_nonempty (w : CampusAIChatWidget) (text : Option String)
    (now0 : Nat) (outcome : FetchOutcome ChatResponse) (now1 now2 : Nat)
    (h : resolveMessage w text ≠ "") :
    w.sendMessage text now0 outcome now1 now2 =
      (w.sendMessageStart now0 text).sendMessageResume outcome now1 now2 := by
  simp [sendMessage, h]

/-! ## Claims -/

/-- C1, counterexample.  On a freshly built widget `sendMessage("   ")` records
the user message `"   "` and issues one request; and `sendMessage("")` on a
widget whose text field holds `hello` records the user message `hello` and
issues one request. -/
theorem sendMessage_blank_text_not_noop :
    ((create {} "campus.example").sendMessageStart 0 (some "   ")).messageHistory =
        [ChatMessage.mk Sender.user "   " 0 {}] ∧
    ((create {} "campus.example").sendMessageStart 0 (some "   ")).requests.length = 1 ∧
    (((create {} "campus.example").onInput "hello").sendMessageStart 0 (some "")).messageHistory =
        [ChatMessage.mk Sender.user "hello" 0 {}] ∧
    (((create {} "campus.example").onInput "hello").sendMessageStart 0 (some "")).requests.length
        = 1 := by
  decide

/-- C1, amended.  When `sendMessage` is called without text or with the empty
string while the text field holds nothing but white space (or nothing at all),
the call is a no-op: the whole state, message history and request log
included, is what it was, whatever the network would have answered. -/
theorem sendMessage_empty_noop (w : CampusAIChatWidget) (text : Option String)
    (now0 : Nat) (outcome : FetchOutcome ChatResponse) (now1 now2 : Nat)
    (htext : text = none ∨ text = some "")
    (hfield : ∀ c ∈ w.inputValue.data, isJsWhiteSpace c = true) :
    w.sendMessage text now0 outcome now1 now2 = w ∧
    w.sendMessageStart now0 text = w := by
  have h := resolveMessage_blank w text htext hfield
  simp [sendMessage, h, sendMessageStart_empty]

/-- C1, witness of the amended statement: `sendMessage("")` on a widget whose
text field holds three spaces. -/
theorem sendMessage_empty_noop_witness :
    ((create {} "campus.example").onInput "   ").sendMessage (some "") 0
        FetchOutcome.rejected 1 2 = (create {} "campus.example").onInput "   " ∧
    ((create {} "campus.example").onInput "   ").sendMessageStart 0 (some "") =
        (create {} "campus.example").onInput "   " :=
  sendMessage_empty_noop ((create {} "campus.example").onInput "   ") (some "") 0
    FetchOutcome.rejected 1 2 (Or.inr rfl) (by decide)

/-- C2, counterexample.  A 2xx answer whose `escalate` is true makes
`sendMessage("I need a human")` append one user message and two bot messages:
the history of a fresh widget ends with three entries. -/
theorem sendMessage_escalate_three_entries :
    ((create {} "campus.example").sendMessage (some "I need a human") 0
        (FetchOutcome.response 200
          (some { conversation_id := "c1", response := "Connecting you.",
                  escalate := some true })) 1 2).messageHistory =
      [ChatMessage.mk Sender.user "I need a human" 0 {},
       ChatMessage.mk Sender.bot "Connecting you." 1 {},
       ChatMessage.mk Sender.bot escalatedText 2 {}] := by
  decide

/-- C2, amended.  For every text that resolves to a non-empty message and every
outcome of the request, `sendMessage` has appended exactly one user message
(and issued exactly one request) when it suspends, and after the request
settles the history is the old history, that user message, and then bot
messages only: one of them, or two when the answer is a 2xx answer whose
`escalate` is truthy. -/
theorem sendMessage_history_growth (w : CampusAIChatWidget) (text : Option String)
    (now0 : Nat) (outcome : FetchOutcome ChatResponse) (now1 now2 : Nat)
    (h : resolveMessage w text ≠ "") :
    (w.sendMessageStart now0 text).messageHistory =
      w.messageHistory ++ [ChatMessage.mk Sender.user (resolveMessage w text) now0 {}] ∧
    (w.sendMessageStart now0 text).requests =
      w.requests ++ [chatRequest w (resolveMessage w text)] ∧
    ∃ bots : List ChatMessage,
      (w.sendMessage text now0 outcome now1 now2).messageHistory =
        w.messageHistory ++
          ChatMessage.mk Sender.user (resolveMessage w text) now0 {} :: bots ∧
      (∀ b ∈ bots, b.sender = Sender.bot) ∧
      bots.length = if escalates outcome then 2 else 1 := by
  refine ⟨sendMessageStart_messageHistory w now0 text h,
    sendMessageStart_requests w now0 text h, ?_⟩
  rw [sendMessage_nonempty w text now0 outcome now1 now2 h]
  rcases outcome with _ | ⟨status, _ | data⟩
  · refine ⟨[ChatMessage.mk Sender.bot connectionErrorText now1 { isError := some true }],
      ?_, ?_, ?_⟩
    · simp [sendMessageResume_rejected, hideTypingIndicator,
        sendMessageCatch_messageHistory, sendMessageStart_messageHistory w now0 text h]
    · simp
    · simp [escalates]
  · refine ⟨[ChatMessage.mk Sender.bot connectionErrorText now1 { isError := some true }],
      ?_, ?_, ?_⟩
    · simp [sendMessageResume_unparsable, hideTypingIndicator,
        sendMessageCatch_messageHistory, sendMessageStart_messageHistory w now0 text h]
    · simp
    · simp [escalates]
  · cases hok : responseOk status
    · refine ⟨[ChatMessage.mk Sender.bot apiErrorText now1 { isError := some true }],
        ?_, ?_, ?_⟩
      · simp [sendMessageResume_notOk _ _ _ _ _ hok, hideTypingIndicator,
          sendMessageStart_messageHistory w now0 text h]
      · simp
      · simp [escalates, hok]
    · refine ⟨ChatMessage.mk Sender.bot data.response now1
          { confidence := data.confidence, source := data.source,
            suggestions := data.suggestions } ::
          (if jsTruthyBool data.escalate then
            [ChatMessage.mk Sender.bot escalatedText now2 {}] else []), ?_, ?_, ?_⟩
      · simp [sendMessageResume_ok _ _ _ _ _ hok, hideTypingIndicator,
          sendMessageSuccess_messageHistory, sendMessageStart_messageHistory w now0 text h]
      · intro b hb
        by_cases he : jsTruthyBool data.escalate = true <;> simp [he] at hb
        · rcases hb with rfl | rfl <;> rfl
        · rw [hb]
      · by_cases he : jsTruthyBool data.escalate = true <;> simp [escalates, hok, he]

/-- C2, witness of the amended statement: `sendMessage("hi")` on a fresh
widget with a rejected request. -/
theorem sendMessage_history_growth_witness :
    ((create {} "campus.example").sendMessageStart 0 (some "hi")).messageHistory =
      (create {} "campus.example").messageHistory ++
        [ChatMessage.mk Sender.user
          (resolveMessage (create {} "campus.example") (some "hi")) 0 {}] ∧
    ((create {} "campus.example").sendMessageStart 0 (some "hi")).requests =
      (create {} "campus.example").requests ++
        [chatRequest (create {} "campus.example")
          (resolveMessage (create {} "campus.example") (some "hi"))] ∧
    ∃ bots : List ChatMessage,
      ((create {} "campus.example").sendMessage (some "hi") 0
          FetchOutcome.rejected 1 2).messageHistory =
        (create {} "campus.example").messageHistory ++
          ChatMessage.mk Sender.user
            (resolveMessage (create {} "campus.example") (some "hi")) 0 {} :: bots ∧
      (∀ b ∈ bots, b.sender = Sender.bot) ∧
      bots.length = if escalates (FetchOutcome.rejected : FetchOutcome ChatResponse)
        then 2 else 1 :=
  sendMessage_history_growth (create {} "campus.example") (some "hi") 0
    FetchOutcome.rejected 1 2 (by decide)

/-- C3.  After a `sendMessage` whose request is answered with a 2xx status and
a body that parsed, `conversationId` is the `conversation_id` of that body,
and the next `sendMessage` that sends anything issues exactly one more
request, whose payload carries that same `conversation_id`. -/
theorem sendMessage_success_conversationId (w : CampusAIChatWidget)
    (text : Option String) (now0 status : Nat) (data : ChatResponse) (now1 now2 : Nat)
    (h : resolveMessage w text ≠ "") (hok : responseOk status = true) :
    (w.sendMessage text now0 (FetchOutcome.response status (some data)) now1 now2).conversationId
      = data.conversation_id ∧
    ∀ (text2 : Option String) (now3 : Nat),
      resolveMessage
        (w.sendMessage text now0 (FetchOutcome.response status (some data)) now1 now2)
        text2 ≠ "" →
      ∃ r : Request,
        ((w.sendMessage text now0 (FetchOutcome.response status (some data)) now1
            now2).sendMessageStart now3 text2).requests =
          (w.sendMessage text now0 (FetchOutcome.response status (some data)) now1
            now2).requests ++ [r] ∧
        requestConversationId r = data.conversation_id := by
  have hc : (w.sendMessage text now0 (FetchOutcome.response status (some data)) now1
      now2).conversationId = data.conversation_id := by
    rw [sendMessage_nonempty w text now0 _ now1 now2 h,
      sendMessageResume_ok _ _ _ _ _ hok]
    simp [hideTypingIndicator, sendMessageSuccess_conversationId]
  refine ⟨hc, ?_⟩
  intro text2 now3 h2
  refine ⟨chatRequest _ (resolveMessage _ text2),
    sendMessageStart_requests _ now3 text2 h2, ?_⟩
  simp [requestConversationId, chatRequest, hc]

/-- C3, witness: the answer `conversation_id: "c1"` to `sendMessage("hi")` on a
fresh widget. -/
theorem sendMessage_success_conversationId_witness :
    ((create {} "campus.example").sendMessage (some "hi") 0
        (FetchOutcome.response 200
          (some { conversation_id := "c1", response := "Hello" })) 1 2).conversationId
      = JsValue.str "c1" ∧
    ∀ (text2 : Option String) (now3 : Nat),
      resolveMessage
        ((create {} "campus.example").sendMessage (some "hi") 0
          (FetchOutcome.response 200
            (some { conversation_id := "c1", response := "Hello" })) 1 2)
        text2 ≠ "" →
      ∃ r : Request,
        (((create {} "campus.example").sendMessage (some "hi") 0
            (FetchOutcome.response 200
              (some { conversation_id := "c1", response := "Hello" })) 1
            2).sendMessageStart now3 text2).requests =
          ((create {} "campus.example").sendMessage (some "hi") 0
            (FetchOutcome.response 200
              (some { conversation_id := "c1", response := "Hello" })) 1
            2).requests ++ [r] ∧
        requestConversationId r = JsValue.str "c1" :=
  sendMessage_success_conversationId (create {} "campus.example") (some "hi") 0 200
    { conversation_id := "c1", response := "Hello" } 1 2 (by decide) (by decide)

/-! ## Lemmas on sessions -/

theorem sendMessageResume_conversationId (w : CampusAIChatWidget)
    (outcome : FetchOutcome ChatResponse) (now now2 : Nat) :
    (w.sendMessageResume outcome now now2).conversationId =
      match (Event.chatSettled outcome now now2).chatSuccess with
      | some d => d.conversation_id
      | none => w.conversationId := by
  rcases outcome with _ | ⟨status, _ | data⟩
  · simp [sendMessageResume, hideTypingIndicator, sendMessageCatch, Event.chatSuccess]
  · simp [sendMessageResume, hideTypingIndicator, sendMessageCatch, Event.chatSuccess]
  · cases hok : responseOk status
    · simp [sendMessageResume, hideTypingIndicator, Event.chatSuccess, hok]
    · simp [sendMessageResume, hideTypingIndicator, Event.chatSuccess, hok,
        sendMessageSuccess_conversationId]

theorem sendMessageResume_requests (w : CampusAIChatWidget)
    (outcome : FetchOutcome ChatResponse) (now now2 : Nat) :
    (w.sendMessageResume outcome now now2).requests = w.requests := by
  rcases outcome with _ | ⟨status, _ | data⟩
  · simp [sendMessageResume, hideTypingIndicator, sendMessageCatch]
  · simp [sendMessageResume, hideTypingIndicator, sendMessageCatch]
  · cases hok : responseOk status
    · simp [sendMessageResume, hideTypingIndicator, hok]
    · simp [sendMessageResume, hideTypingIndicator, hok, sendMessageSuccess_requests]

theorem escalateToHumanResume_conversationId_requests (w : CampusAIChatWidget)
    (outcome : FetchOutcome EscalateResponse) (now : Nat) :
    (w.escalateToHumanResume outcome now).conversationId = w.conversationId ∧
    (w.escalateToHumanResume outcome now).requests = w.requests := by
  rcases outcome with _ | ⟨status, _ | data⟩
  · simp [escalateToHumanResume]
  · simp [escalateToHumanResume]
  · cases hok : responseOk status <;> simp [escalateToHumanResume, hok]

theorem toggleWidget_conversationId_requests (w : CampusAIChatWidget) :
    w.toggleWidget.conversationId = w.conversationId ∧
    w.toggleWidget.requests = w.requests := by
  unfold toggleWidget
  cases w.isOpen <;> simp [closeWidget, hideUnreadBadge]

theorem onKeydown_conversationId_requests (w : CampusAIChatWidget) (altKey : Bool)
    (key : String) :
    (w.onKeydown altKey key).conversationId = w.conversationId ∧
    (w.onKeydown altKey key).requests = w.requests := by
  unfold onKeydown
  have ht := toggleWidget_conversationId_requests w
  by_cases h1 : (altKey && key == "c") = true
  · by_cases h2 : (key == "Escape" && w.toggleWidget.isOpen) = true <;>
      simp [h1, h2, closeWidget, ht]
  · by_cases h2 : (key == "Escape" && w.isOpen) = true <;>
      simp [h1, h2, closeWidget]

/-- The only event that writes `conversationId` is the settling of a chat
request with a 2xx status and a parsed body, which stores the
`conversation_id` of the body. -/
theorem step_conversationId (w : CampusAIChatWidget) (e : Event) :
    (step w e).conversationId =
      match e.chatSuccess with
      | some d => d.conversation_id
      | none => w.conversationId := by
  cases e with
  | sendMessage now text => simp [step, Event.chatSuccess]
  | chatSettled outcome now now2 => exact sendMessageResume_conversationId w outcome now now2
  | escalateToHuman now =>
    simp only [step, Event.chatSuccess, escalateToHumanStart]
    cases jsTruthyString w.conversationId <;> simp [callAPI]
  | escalateSettled outcome now =>
    simp [step, Event.chatSuccess, escalateToHumanResume_conversationId_requests]
  | changeLanguage language => simp [step, Event.chatSuccess, changeLanguage, loadLanguage]
  | languageSelect value =>
    simp [step, Event.chatSuccess, onLanguageSelect, changeLanguage, loadLanguage]
  | openWidget =>
    simp only [step, Event.chatSuccess, openWidget]
    cases w.isOpen <;> simp [toggleWidget_conversationId_requests]
  | close =>
    simp only [step, Event.chatSuccess, close]
    cases w.isOpen <;> simp [closeWidget]
  | toggleWidget => simp [step, Event.chatSuccess, toggleWidget_conversationId_requests]
  | closeWidget => simp [step, Event.chatSuccess, closeWidget]
  | minimizeWidget => simp [step, Event.chatSuccess, minimizeWidget, closeWidget, showUnreadBadge]
  | keydown altKey key => simp [step, Event.chatSuccess, onKeydown_conversationId_requests]
  | input value => simp [step, Event.chatSuccess, onInput]
  | sendPredefinedMessage =>
    simp only [step, Event.chatSuccess, sendPredefinedMessageStart, openWidget]
    cases w.isOpen <;> simp [toggleWidget_conversationId_requests]

/-- Every request an event issues carries the `conversationId` the widget has
when the event starts. -/
theorem step_requests (w : CampusAIChatWidget) (e : Event) :
    ∃ new : List Request, (step w e).requests = w.requests ++ new ∧
      ∀ r ∈ new, requestConversationId r = w.conversationId := by
  cases e with
  | sendMessage now text =>
    by_cases h : resolveMessage w text = ""
    · exact ⟨[], by simp [step, sendMessageStart_empty w now text h], by simp⟩
    · exact ⟨[chatRequest w (resolveMessage w text)],
        by simp [step, sendMessageStart_requests w now text h],
        by simp [requestConversationId, chatRequest]⟩
  | chatSettled outcome now now2 =>
    exact ⟨[], by simp [step, sendMessageResume_requests], by simp⟩
  | escalateToHuman now =>
    cases hc : jsTruthyString w.conversationId
    · exact ⟨[], by simp [step, escalateToHumanStart, hc], by simp⟩
    · exact ⟨[Request.mk (jsToString w.config.apiBaseUrl ++ "/chat/escalate") "POST"
          (RequestBody.escalate
            { conversation_id := w.conversationId
              reason := "User requested human assistance" })],
        by simp [step, escalateToHumanStart, hc, callAPI],
        by simp [requestConversationId]⟩
  | escalateSettled outcome now =>
    exact ⟨[], by simp [step, escalateToHumanResume_conversationId_requests], by simp⟩
  | changeLanguage language =>
    exact ⟨[], by simp [step, changeLanguage, loadLanguage], by simp⟩
  | languageSelect value =>
    exact ⟨[], by simp [step, onLanguageSelect, changeLanguage, loadLanguage], by simp⟩
  | openWidget =>
    refine ⟨[], ?_, by simp⟩
    simp only [step, openWidget]
    cases w.isOpen <;> simp [toggleWidget_conversationId_requests]
  | close =>
    refine ⟨[], ?_, by simp⟩
    simp only [step, close]
    cases w.isOpen <;> simp [closeWidget]
  | toggleWidget => exact ⟨[], by simp [step, toggleWidget_conversationId_requests], by simp⟩
  | closeWidget => exact ⟨[], by simp [step, closeWidget], by simp⟩
  | minimizeWidget =>
    exact ⟨[], by simp [step, minimizeWidget, closeWidget, showUnreadBadge], by simp⟩
  | keydown altKey key =>
    exact ⟨[], by simp [step, onKeydown_conversationId_requests], by simp⟩
  | input value => exact ⟨[], by simp [step, onInput], by simp⟩
  | sendPredefinedMessage =>
    refine ⟨[], ?_, by simp⟩
    simp only [step, sendPredefinedMessageStart, openWidget]
    cases w.isOpen <;> simp [toggleWidget_conversationId_requests]

theorem run_cons (w : CampusAIChatWidget) (e : Event) (es : List Event) :
    run w (e :: es) = run (step w e) es := rfl

theorem run_nil (w : CampusAIChatWidget) : run w [] = w := rfl

/-- C4, counterexample.  Two successive 2xx answers that carry different ids:
`conversationId` is `c1` after the first and `c2` after the second, and the
three requests of the session carry `null`, `c1` and `c2`. -/
theorem conversationId_overwritten :
    (run (create {} "campus.example")
      [Event.sendMessage 0 (some "hi"),
       Event.chatSettled (FetchOutcome.response 200
         (some { conversation_id := "c1", response := "Hello" })) 1 2]).conversationId
      = JsValue.str "c1" ∧
    (run (create {} "campus.example")
      [Event.sendMessage 0 (some "hi"),
       Event.chatSettled (FetchOutcome.response 200
         (some { conversation_id := "c1", response := "Hello" })) 1 2,
       Event.sendMessage 3 (some "fees"),
       Event.chatSettled (FetchOutcome.response 200
         (some { conversation_id := "c2", response := "See the fee page" })) 4 5,
       Event.sendMessage 6 (some "thanks")]).conversationId = JsValue.str "c2" ∧
    (run (create {} "campus.example")
      [Event.sendMessage 0 (some "hi"),
       Event.chatSettled (FetchOutcome.response 200
         (some { conversation_id := "c1", response := "Hello" })) 1 2,
       Event.sendMessage 3 (some "fees"),
       Event.chatSettled (FetchOutcome.response 200
         (some { conversation_id := "c2", response := "See the fee page" })) 4 5,
       Event.sendMessage 6 (some "thanks")]).requests.map requestConversationId
      = [JsValue.null, JsValue.str "c1", JsValue.str "c2"] := by
  decide

/-- C4, amended.  For every sequence of widget events, if `conversationId` is
`c` and every 2xx chat answer with a parsed body that arrives during the
sequence carries the `conversation_id` `c`, then `conversationId` is still `c`
after the sequence and every request issued during it carries `c`. -/
theorem conversationId_stable (w : CampusAIChatWidget) (c : JsValue) (es : List Event)
    (hw : w.conversationId = c)
    (hes : ∀ e ∈ es, ∀ d, e.chatSuccess = some d → d.conversation_id = c) :
    (run w es).conversationId = c ∧
    ∃ new : List Request, (run w es).requests = w.requests ++ new ∧
      ∀ r ∈ new, requestConversationId r = c := by
  induction es generalizing w with
  | nil => exact ⟨hw, [], by simp [run_nil], by simp⟩
  | cons e es ih =>
    have hstep : (step w e).conversationId = c := by
      rw [step_conversationId]
      cases hd : e.chatSuccess with
      | none => simpa using hw
      | some d => simp [hes e (List.mem_cons_self e es) d hd]
    obtain ⟨new1, hreq1, hnew1⟩ := step_requests w e
    obtain ⟨hfin, new2, hreq2, hnew2⟩ :=
      ih (step w e) hstep (fun e1 he1 => hes e1 (List.mem_cons_of_mem e he1))
    rw [run_cons]
    refine ⟨hfin, new1 ++ new2, ?_, ?_⟩
    · rw [hreq2, hreq1, List.append_assoc]
    · intro r hr
      rcases List.mem_append.mp hr with h1 | h2
      · rw [hnew1 r h1, hw]
      · exact hnew2 r h2

/-- C4, witness of the amended statement: a session that starts with the id
`c1`, in which the server answers `c1` again. -/
theorem conversationId_stable_witness :
    (run ((create {} "campus.example").sendMessage (some "hi") 0
        (FetchOutcome.response 200
          (some { conversation_id := "c1", response := "Hello" })) 1 2)
      [Event.sendMessage 3 (some "fees"),
       Event.chatSettled (FetchOutcome.response 200
         (some { conversation_id := "c1", response := "See the fee page" })) 4 5,
       Event.escalateToHuman 6]).conversationId = JsValue.str "c1" ∧
    ∃ new : List Request,
      (run ((create {} "campus.example").sendMessage (some "hi") 0
          (FetchOutcome.response 200
            (some { conversation_id := "c1", response := "Hello" })) 1 2)
        [Event.sendMessage 3 (some "fees"),
         Event.chatSettled (FetchOutcome.response 200
           (some { conversation_id := "c1", response := "See the fee page" })) 4 5,
         Event.escalateToHuman 6]).requests =
        ((create {} "campus.example").sendMessage (some "hi") 0
          (FetchOutcome.response 200
            (some { conversation_id := "c1", response := "Hello" })) 1 2).requests ++ new ∧
      ∀ r ∈ new, requestConversationId r = JsValue.str "c1" :=
  conversationId_stable _ (JsValue.str "c1") _ (by decide) (by decide)

/-- C5.  A freshly constructed widget has no `conversationId`, and none is set
by any sequence of events in which no chat request settles with a 2xx status
and a parsed body: calls of `sendMessage`, chat requests that are rejected or
answered with a non-2xx status, `escalateToHuman` and its answers,
`changeLanguage`, `open`, `close`, `toggleWidget` and the other listeners. -/
theorem conversationId_unset_until_success (config : CallerConfig) (hostname : String) :
    (create config hostname).conversationId = JsValue.null ∧
    ∀ es : List Event, (∀ e ∈ es, e.chatSuccess = none) →
      (run (create config hostname) es).conversationId = JsValue.null := by
  refine ⟨rfl, ?_⟩
  intro es
  suffices h : ∀ w : CampusAIChatWidget, w.conversationId = JsValue.null →
      (∀ e ∈ es, e.chatSuccess = none) → (run w es).conversationId = JsValue.null from
    h (create config hostname) rfl
  induction es with
  | nil => intro w hw _; simpa [run_nil] using hw
  | cons e es ih =>
    intro w hw hes
    rw [run_cons]
    refine ih (step w e) ?_ (fun e1 he1 => hes e1 (List.mem_cons_of_mem e he1))
    rw [step_conversationId, hes e (List.mem_cons_self e es)]
    exact hw

/-- C5, witness: a session with a rejected request, a 500 answer, an
escalation attempt, a language change and the open and close methods. -/
theorem conversationId_unset_until_success_witness :
    (run (create {} "campus.example")
      [Event.sendMessage 0 (some "hi"),
       Event.chatSettled FetchOutcome.rejected 1 2,
       Event.sendMessage 3 (some "hi again"),
       Event.chatSettled (FetchOutcome.response 500
         (some { conversation_id := "c1", response := "Hello" })) 4 5,
       Event.escalateToHuman 6,
       Event.changeLanguage "hi",
       Event.openWidget,
       Event.toggleWidget,
       Event.close]).conversationId = JsValue.null :=
  (conversationId_unset_until_success {} "campus.example").2 _ (by decide)

/-- C6.  For every non-empty text and every 2xx answer with a parsed body whose
`escalate` is not truthy, `sendMessage(text)` extends the history by exactly
two entries, in this order: the user message with exactly that text, then the
bot message whose text is the `response` field and whose metadata holds the
`confidence`, `source` and `suggestions` of the answer; and `conversationId`
becomes the `conversation_id` of the answer. -/
theorem sendMessage_success_history (w : CampusAIChatWidget) (text : String)
    (now0 status : Nat) (data : ChatResponse) (now1 now2 : Nat)
    (ht : text ≠ "") (hok : responseOk status = true)
    (hesc : jsTruthyBool data.escalate = false) :
    (w.sendMessage (some text) now0 (FetchOutcome.response status (some data)) now1
        now2).messageHistory =
      w.messageHistory ++
        [ChatMessage.mk Sender.user text now0 {},
         ChatMessage.mk Sender.bot data.response now1
           { confidence := data.confidence, source := data.source,
             suggestions := data.suggestions }] ∧
    (w.sendMessage (some text) now0 (FetchOutcome.response status (some data)) now1
        now2).conversationId = data.conversation_id := by
  have hr : resolveMessage w (some text) = text := resolveMessage_some w text ht
  have h : resolveMessage w (some text) ≠ "" := by rw [hr]; exact ht
  rw [sendMessage_nonempty w (some text) now0 _ now1 now2 h,
    sendMessageResume_ok _ _ _ _ _ hok]
  constructor
  · simp [hideTypingIndicator, sendMessageSuccess_messageHistory,
      sendMessageStart_messageHistory w now0 (some text) h, hr, hesc]
  · simp [hideTypingIndicator, sendMessageSuccess_conversationId]

/-- C6, witness: the chip text `What are the admission requirements?` answered
with the id `c1`, the reply `Here are the requirements...` and the suggestion
`Apply now` leaves a history of two entries and the id `c1`. -/
theorem sendMessage_success_history_witness :
    ((create {} "campus.example").sendMessage
        (some "What are the admission requirements?") 0
        (FetchOutcome.response 200
          (some { conversation_id := "c1", response := "Here are the requirements...",
                  suggestions := some ["Apply now"] })) 1 2).messageHistory =
      (create {} "campus.example").messageHistory ++
        [ChatMessage.mk Sender.user "What are the admission requirements?" 0 {},
         ChatMessage.mk Sender.bot "Here are the requirements..." 1
           { confidence := none, source := none, suggestions := some ["Apply now"] }] ∧
    ((create {} "campus.example").sendMessage
        (some "What are the admission requirements?") 0
        (FetchOutcome.response 200
          (some { conversation_id := "c1", response := "Here are the requirements...",
                  suggestions := some ["Apply now"] })) 1 2).conversationId =
      JsValue.str "c1" :=
  sendMessage_success_history (create {} "campus.example")
    "What are the admission requirements?" 0 200
    { conversation_id := "c1", response := "Here are the requirements...",
      suggestions := some ["Apply now"] } 1 2 (by decide) (by decide) (by decide)

/-- C7, the code at the failing input.  A widget whose language is `en` receives
a 2xx answer without `detected_language`: `currentLanguage` becomes
`undefined`, the language control loses its selection, and the payload of the
next request carries no language. -/
theorem sendMessage_absent_detected_language :
    (create {} "campus.example").currentLanguage = JsValue.str "en" ∧
    ((create {} "campus.example").sendMessage (some "hi") 0
        (FetchOutcome.response 200
          (some { conversation_id := "c1", response := "Hello" })) 1 2).currentLanguage
      = JsValue.undefined ∧
    ((create {} "campus.example").sendMessage (some "hi") 0
        (FetchOutcome.response 200
          (some { conversation_id := "c1", response := "Hello" })) 1 2).languageSelectValue
      = "" ∧
    (((create {} "campus.example").sendMessage (some "hi") 0
        (FetchOutcome.response 200
          (some { conversation_id := "c1", response := "Hello" })) 1
        2).sendMessageStart 3 (some "fees")).requests.getLast? =
      some (Request.mk "http://localhost:8000/api/v1/chat/message" "POST"
        (RequestBody.chat
          { message := "fees", conversation_id := JsValue.str "c1", platform := "web",
            language := JsValue.undefined, website_domain := "campus.example" })) := by
  decide

/-- C8.  For every non-empty text and every 2xx answer with a parsed body,
`sendMessage` leaves the old history, the user message, the bot reply and,
exactly when `escalate` is truthy, the fixed escalation message right after
the reply; the history has grown by three entries exactly in that case. -/
theorem sendMessage_escalation_notice (w : CampusAIChatWidget) (text : String)
    (now0 status : Nat) (data : ChatResponse) (now1 now2 : Nat)
    (ht : text ≠ "") (hok : responseOk status = true) :
    (w.sendMessage (some text) now0 (FetchOutcome.response status (some data)) now1
        now2).messageHistory =
      w.messageHistory ++
        [ChatMessage.mk Sender.user text now0 {},
         ChatMessage.mk Sender.bot data.response now1
           { confidence := data.confidence, source := data.source,
             suggestions := data.suggestions }] ++
        (if jsTruthyBool data.escalate then
          [ChatMessage.mk Sender.bot
            "I've escalated your query to our support team. They will contact you shortly. Is there anything else I can help you with in the meantime?"
            now2 {}]
         else []) ∧
    ((w.sendMessage (some text) now0 (FetchOutcome.response status (some data)) now1
        now2).messageHistory.length = w.messageHistory.length + 3 ↔
      jsTruthyBool data.escalate = true) := by
  have hr : resolveMessage w (some text) = text := resolveMessage_some w text ht
  have h : resolveMessage w (some text) ≠ "" := by rw [hr]; exact ht
  rw [sendMessage_nonempty w (some text) now0 _ now1 now2 h,
    sendMessageResume_ok _ _ _ _ _ hok]
  by_cases he : jsTruthyBool data.escalate = true <;>
    simp [hideTypingIndicator, sendMessageSuccess_messageHistory,
      sendMessageStart_messageHistory w now0 (some text) h, hr, he, escalatedText]

/-- C8, witness: an answer with `escalate: true` to `sendMessage("help")`. -/
theorem sendMessage_escalation_notice_witness :
    ((create {} "campus.example").sendMessage (some "help") 0
        (FetchOutcome.response 200
          (some { conversation_id := "c1", response := "One moment.",
                  escalate := some true })) 1 2).messageHistory =
      (create {} "campus.example").messageHistory ++
        [ChatMessage.mk Sender.user "help" 0 {},
         ChatMessage.mk Sender.bot "One moment." 1
           { confidence := none, source := none, suggestions := none }] ++
        (if jsTruthyBool (some true) then
          [ChatMessage.mk Sender.bot
            "I've escalated your query to our support team. They will contact you shortly. Is there anything else I can help you with in the meantime?"
            2 {}]
         else []) ∧
    (((create {} "campus.example").sendMessage (some "help") 0
        (FetchOutcome.response 200
          (some { conversation_id := "c1", response := "One moment.",
                  escalate := some true })) 1 2).messageHistory.length =
        (create {} "campus.example").messageHistory.length + 3 ↔
      jsTruthyBool (some true) = true) :=
  sendMessage_escalation_notice (create {} "campus.example") "help" 0 200
    { conversation_id := "c1", response := "One moment.", escalate := some true } 1 2
    (by decide) (by decide)

/-- C9.  For every non-empty text, when the request is rejected `sendMessage`
leaves the old history followed by the user message and then, as last entry,
a bot message with the fixed connectivity text and `isError` true. -/
theorem sendMessage_rejected_history (w : CampusAIChatWidget) (text : String)
    (now0 now1 now2 : Nat) (ht : text ≠ "") :
    (w.sendMessage (some text) now0 FetchOutcome.rejected now1 now2).messageHistory =
      w.messageHistory ++
        [ChatMessage.mk Sender.user text now0 {},
         ChatMessage.mk Sender.bot
           "Sorry, I'm having trouble connecting. Please check your internet connection and try again."
           now1 { isError := some true }] := by
  have hr : resolveMessage w (some text) = text := resolveMessage_some w text ht
  have h : resolveMessage w (some text) ≠ "" := by rw [hr]; exact ht
  rw [sendMessage_nonempty w (some text) now0 _ now1 now2 h, sendMessageResume_rejected]
  simp [hideTypingIndicator, sendMessageCatch_messageHistory,
    sendMessageStart_messageHistory w now0 (some text) h, hr, connectionErrorText]

/-- C9, witness: `sendMessage("hi")` with a rejected request. -/
theorem sendMessage_rejected_history_witness :
    ((create {} "campus.example").sendMessage (some "hi") 0 FetchOutcome.rejected 1
        2).messageHistory =
      (create {} "campus.example").messageHistory ++
        [ChatMessage.mk Sender.user "hi" 0 {},
         ChatMessage.mk Sender.bot
           "Sorry, I'm having trouble connecting. Please check your internet connection and try again."
           1 { isError := some true }] :=
  sendMessage_rejected_history (create {} "campus.example") "hi" 0 1 2 (by decide)

/-- C10, the code at the failing input.  A 502 answer whose body is not JSON
makes `sendMessage("hi")` end the history with the connectivity text of the
`catch` block, which is not the text of the `else` branch for non-2xx answers;
the same status with a JSON body ends it with the text of the `else` branch. -/
theorem sendMessage_non2xx_unparsable_body :
    ((create {} "campus.example").sendMessage (some "hi") 0
        (FetchOutcome.response 502 none) 1 2).messageHistory =
      [ChatMessage.mk Sender.user "hi" 0 {},
       ChatMessage.mk Sender.bot
         "Sorry, I'm having trouble connecting. Please check your internet connection and try again."
         1 { isError := some true }] ∧
    ((create {} "campus.example").sendMessage (some "hi") 0
        (FetchOutcome.response 502
          (some { conversation_id := "c9", response := "Bad gateway" })) 1 2).messageHistory =
      [ChatMessage.mk Sender.user "hi" 0 {},
       ChatMessage.mk Sender.bot "Sorry, I encountered an error. Please try again." 1
         { isError := some true }] := by
  decide

/-! ## Lemmas on the typing flag, the language and the chips -/

@[simp]
theorem addMessage_isTyping (w : CampusAIChatWidget) (now : Nat)
    (sender : Sender) (text : JsValue) (m : Metadata) :
    (w.addMessage now sender text m).isTyping = w.isTyping := by
  unfold addMessage
  rcases hm : m.suggestions with _ | l
  · simp
  · by_cases hl : l.length > 0 <;> simp [hl, updateSuggestions]

@[simp]
theorem addMessage_isOpen (w : CampusAIChatWidget) (now : Nat)
    (sender : Sender) (text : JsValue) (m : Metadata) :
    (w.addMessage now sender text m).isOpen = w.isOpen := by
  unfold addMessage
  rcases hm : m.suggestions with _ | l
  · simp
  · by_cases hl : l.length > 0 <;> simp [hl, updateSuggestions]

theorem sendMessageResume_isTyping (w : CampusAIChatWidget)
    (outcome : FetchOutcome ChatResponse) (now now2 : Nat) :
    (w.sendMessageResume outcome now now2).isTyping = false := by
  simp [sendMessageResume, hideTypingIndicator]

/-- C11.  For every text that resolves to a non-empty message and every
outcome of the request (2xx, non-2xx, unparsable body, rejection), the state
in which `sendMessage` calls `callAPI` has `isTyping` true, so has the state
in which the method suspends, and `isTyping` is false when the method
completes. -/
theorem sendMessage_isTyping (w : CampusAIChatWidget) (text : Option String)
    (now0 : Nat) (outcome : FetchOutcome ChatResponse) (now1 now2 : Nat)
    (h : resolveMessage w text ≠ "") :
    (∃ w3 : CampusAIChatWidget, w3.isTyping = true ∧
      w.sendMessageStart now0 text =
        w3.callAPI "/chat/message" "POST"
          (RequestBody.chat
            { message := resolveMessage w text
              conversation_id := w.conversationId
              platform := "web"
              language := w.currentLanguage
              website_domain := w.hostname })) ∧
    (w.sendMessageStart now0 text).isTyping = true ∧
    (w.sendMessage text now0 outcome now1 now2).isTyping = false := by
  refine ⟨⟨showTypingIndicator
      (addMessage { w with inputValue := "", sendBtnDisabled := true } now0
        Sender.user (resolveMessage w text) {}), by simp [showTypingIndicator], ?_⟩, ?_, ?_⟩
  · simp [sendMessageStart, h, showTypingIndicator]
  · simp [sendMessageStart, h, showTypingIndicator, callAPI]
  · rw [sendMessage_nonempty w text now0 outcome now1 now2 h]
    exact sendMessageResume_isTyping _ outcome now1 now2

/-- C11, witness: `sendMessage("hi")` on a fresh widget, answered with status
500 and a body that is not JSON. -/
theorem sendMessage_isTyping_witness :
    (∃ w3 : CampusAIChatWidget, w3.isTyping = true ∧
      (create {} "campus.example").sendMessageStart 0 (some "hi") =
        w3.callAPI "/chat/message" "POST"
          (RequestBody.chat
            { message := resolveMessage (create {} "campus.example") (some "hi")
              conversation_id := (create {} "campus.example").conversationId
              platform := "web"
              language := (create {} "campus.example").currentLanguage
              website_domain := (create {} "campus.example").hostname })) ∧
    ((create {} "campus.example").sendMessageStart 0 (some "hi")).isTyping = true ∧
    ((create {} "campus.example").sendMessage (some "hi") 0
      (FetchOutcome.response 500 none) 1 2).isTyping = false :=
  sendMessage_isTyping (create {} "campus.example") (some "hi") 0
    (FetchOutcome.response 500 none) 1 2 (by decide)

theorem changeLanguage_currentLanguage (w : CampusAIChatWidget) (language : String) :
    (w.changeLanguage language).currentLanguage = JsValue.str language := by
  simp [changeLanguage, loadLanguage]

theorem changeLanguage_welcomeText (w : CampusAIChatWidget) (language : String) :
    (w.changeLanguage language).welcomeText = lookupOrEn welcomeMessages language := rfl

theorem changeLanguage_inputPlaceholder (w : CampusAIChatWidget) (language : String) :
    (w.changeLanguage language).inputPlaceholder = lookupOrEn placeholders language := rfl

/-- For a code that is neither one of the five keys of the tables nor a name
inherited from `Object.prototype`, `changeLanguage` shows the English texts. -/
theorem changeLanguage_unrecognised (w : CampusAIChatWidget) (language : String)
    (h1 : language ∉ languageOptions) (h2 : language ∉ objectPrototypeKeys) :
    (w.changeLanguage language).welcomeText = welcomeEn ∧
    (w.changeLanguage language).inputPlaceholder = placeholderEn ∧
    (w.changeLanguage language).currentLanguage = JsValue.str language := by
  simp only [languageOptions, List.mem_cons, List.mem_singleton, List.not_mem_nil,
    or_false, not_or] at h1
  obtain ⟨a, b, c, d, e⟩ := h1
  have a1 : (language == "en") = false := by simpa using a
  have b1 : (language == "hi") = false := by simpa using b
  have c1 : (language == "mr") = false := by simpa using c
  have d1 : (language == "ta") = false := by simpa using d
  have e1 : (language == "te") = false := by simpa using e
  have hw : welcomeMessages.lookup language = none := by
    simp [welcomeMessages, List.lookup, a1, b1, c1, d1, e1]
  have hp : placeholders.lookup language = none := by
    simp [placeholders, List.lookup, a1, b1, c1, d1, e1]
  refine ⟨?_, ?_, changeLanguage_currentLanguage w language⟩
  · rw [changeLanguage_welcomeText]
    simp only [lookupOrEn, hw, h2, if_false]
    decide
  · rw [changeLanguage_inputPlaceholder]
    simp only [lookupOrEn, hp, h2, if_false]
    decide

/-- For each of the five codes of the tables, `changeLanguage` shows the
entries of that code. -/
theorem changeLanguage_recognised (w : CampusAIChatWidget) (language : String)
    (h : language ∈ languageOptions) :
    some (w.changeLanguage language).welcomeText = welcomeMessages.lookup language ∧
    some (w.changeLanguage language).inputPlaceholder = placeholders.lookup language ∧
    (w.changeLanguage language).currentLanguage = JsValue.str language := by
  rw [changeLanguage_welcomeText, changeLanguage_inputPlaceholder]
  refine ⟨?_, ?_, changeLanguage_currentLanguage w language⟩
  · revert language
    decide
  · revert language
    decide

/-- C12, the code at the failing input.  `changeLanguage("toString")` records
the language `toString`, as the claim says, but `welcomeMessages["toString"]`
and `placeholders["toString"]` are the function inherited from
`Object.prototype`, which is truthy: the welcome text and the placeholder are
the text of that function, not the English entries.  A code such as `xx`, which
is no inherited name, does get the English entries. -/
theorem changeLanguage_inherited_name :
    ((create {} "campus.example").changeLanguage "toString").currentLanguage =
      JsValue.str "toString" ∧
    ((create {} "campus.example").changeLanguage "toString").welcomeText ≠
      "Hello! I'm here to help with your campus queries. Ask me about fees, admissions, schedules, and more!" ∧
    ((create {} "campus.example").changeLanguage "toString").inputPlaceholder ≠
      "Type your question here..." ∧
    ((create {} "campus.example").changeLanguage "toString").welcomeText =
      "function toString() \x7b [native code] \x7d" ∧
    ((create {} "campus.example").changeLanguage "xx").welcomeText =
      "Hello! I'm here to help with your campus queries. Ask me about fees, admissions, schedules, and more!" ∧
    ((create {} "campus.example").changeLanguage "xx").inputPlaceholder =
      "Type your question here..." := by
  decide

/-- C13.  When `conversationId` is `null`, `escalateToHuman` appends exactly one
bot message, with the text that asks to start a conversation first, issues no
request, and leaves `conversationId`, `currentLanguage`, `isOpen` and
`isTyping` as they were, whatever the network would have answered. -/
theorem escalateToHuman_without_conversation (w : CampusAIChatWidget) (now0 : Nat)
    (outcome : FetchOutcome EscalateResponse) (now1 : Nat)
    (h : w.conversationId = JsValue.null) :
    (w.escalateToHuman now0 outcome now1).messageHistory =
      w.messageHistory ++
        [ChatMessage.mk Sender.bot
          "Please start a conversation first before requesting human assistance."
          now0 {}] ∧
    (w.escalateToHuman now0 outcome now1).requests = w.requests ∧
    (w.escalateToHuman now0 outcome now1).conversationId = w.conversationId ∧
    (w.escalateToHuman now0 outcome now1).currentLanguage = w.currentLanguage ∧
    (w.escalateToHuman now0 outcome now1).isOpen = w.isOpen ∧
    (w.escalateToHuman now0 outcome now1).isTyping = w.isTyping := by
  simp [escalateToHuman, escalateToHumanStart, jsTruthyString, h,
    startConversationFirstText]

/-- C13, witness: `escalateToHuman` on a fresh widget. -/
theorem escalateToHuman_without_conversation_witness :
    ((create {} "campus.example").escalateToHuman 0 FetchOutcome.rejected 1).messageHistory =
      (create {} "campus.example").messageHistory ++
        [ChatMessage.mk Sender.bot
          "Please start a conversation first before requesting human assistance."
          0 {}] ∧
    ((create {} "campus.example").escalateToHuman 0 FetchOutcome.rejected 1).requests =
      (create {} "campus.example").requests ∧
    ((create {} "campus.example").escalateToHuman 0 FetchOutcome.rejected 1).conversationId =
      (create {} "campus.example").conversationId ∧
    ((create {} "campus.example").escalateToHuman 0 FetchOutcome.rejected 1).currentLanguage =
      (create {} "campus.example").currentLanguage ∧
    ((create {} "campus.example").escalateToHuman 0 FetchOutcome.rejected 1).isOpen =
      (create {} "campus.example").isOpen ∧
    ((create {} "campus.example").escalateToHuman 0 FetchOutcome.rejected 1).isTyping =
      (create {} "campus.example").isTyping :=
  escalateToHuman_without_conversation (create {} "campus.example") 0
    FetchOutcome.rejected 1 rfl

/-- C14.  When `conversationId` is set (a non-empty string, which is what the
guard of the method tests), `escalateToHuman` issues exactly one request, a
POST to the escalation endpoint whose body carries the current
`conversationId` and the reason, and appends exactly one bot message: the
`message` of the answer on a 2xx answer with a parsed body, the fixed failure
text on a non-2xx answer, on a rejected request and on a body that is not
JSON. -/
theorem escalateToHuman_with_conversation (w : CampusAIChatWidget) (now0 : Nat)
    (outcome : FetchOutcome EscalateResponse) (now1 : Nat)
    (h : jsTruthyString w.conversationId = true) :
    (w.escalateToHuman now0 outcome now1).requests =
      w.requests ++
        [Request.mk (jsToString w.config.apiBaseUrl ++ "/chat/escalate") "POST"
          (RequestBody.escalate
            { conversation_id := w.conversationId
              reason := "User requested human assistance" })] ∧
    (w.escalateToHuman now0 outcome now1).messageHistory =
      w.messageHistory ++
        [ChatMessage.mk Sender.bot
          (match outcome with
           | FetchOutcome.response status (some data) =>
             if responseOk status then data.message
             else "Sorry, I couldn't escalate your request right now. Please try again later."
           | _ => "Sorry, I couldn't escalate your request right now. Please try again later.")
          now1 {}] := by
  rcases outcome with _ | ⟨status, _ | data⟩
  · simp [escalateToHuman, escalateToHumanStart, escalateToHumanResume, h, callAPI,
      escalationFailedText]
  · simp [escalateToHuman, escalateToHumanStart, escalateToHumanResume, h, callAPI,
      escalationFailedText]
  · cases hok : responseOk status <;>
      simp [escalateToHuman, escalateToHumanStart, escalateToHumanResume, h, callAPI,
        escalationFailedText, hok]

/-- C14, witness: a widget whose conversation is `c1` escalates and the server
answers with its own message. -/
theorem escalateToHuman_with_conversation_witness :
    (((create {} "campus.example").sendMessage (some "hi") 0
        (FetchOutcome.response 200
          (some { conversation_id := "c1", response := "Hello" })) 1 2).escalateToHuman 3
        (FetchOutcome.response 200 (some { message := "An agent will join." })) 4).requests =
      ((create {} "campus.example").sendMessage (some "hi") 0
        (FetchOutcome.response 200
          (some { conversation_id := "c1", response := "Hello" })) 1 2).requests ++
        [Request.mk
          (jsToString ((create {} "campus.example").sendMessage (some "hi") 0
            (FetchOutcome.response 200
              (some { conversation_id := "c1", response := "Hello" })) 1
            2).config.apiBaseUrl ++ "/chat/escalate") "POST"
          (RequestBody.escalate
            { conversation_id :=
                ((create {} "campus.example").sendMessage (some "hi") 0
                  (FetchOutcome.response 200
                    (some { conversation_id := "c1", response := "Hello" })) 1
                  2).conversationId
              reason := "User requested human assistance" })] ∧
    (((create {} "campus.example").sendMessage (some "hi") 0
        (FetchOutcome.response 200
          (some { conversation_id := "c1", response := "Hello" })) 1 2).escalateToHuman 3
        (FetchOutcome.response 200 (some { message := "An agent will join." })) 4).messageHistory =
      ((create {} "campus.example").sendMessage (some "hi") 0
        (FetchOutcome.response 200
          (some { conversation_id := "c1", response := "Hello" })) 1 2).messageHistory ++
        [ChatMessage.mk Sender.bot
          (match (FetchOutcome.response 200 (some { message := "An agent will join." }) :
              FetchOutcome EscalateResponse) with
           | FetchOutcome.response status (some data) =>
             if responseOk status then data.message
             else "Sorry, I couldn't escalate your request right now. Please try again later."
           | _ => "Sorry, I couldn't escalate your request right now. Please try again later.")
          4 {}] :=
  escalateToHuman_with_conversation
    ((create {} "campus.example").sendMessage (some "hi") 0
      (FetchOutcome.response 200
        (some { conversation_id := "c1", response := "Hello" })) 1 2) 3
    (FetchOutcome.response 200 (some { message := "An agent will join." })) 4 (by decide)

/-- C15.  From every state `open` leaves `isOpen` true and `close` leaves it
false; applying either method twice gives the state one application gives; and
each method returns the state it was given when the widget is already in the
target state. -/
theorem open_close_idempotent (w : CampusAIChatWidget) :
    w.openWidget.isOpen = true ∧
    w.close.isOpen = false ∧
    w.openWidget.openWidget = w.openWidget ∧
    w.close.close = w.close ∧
    (w.isOpen = true → w.openWidget = w) ∧
    (w.isOpen = false → w.close = w) := by
  have ho : w.openWidget.isOpen = true := by
    unfold openWidget toggleWidget
    cases h : w.isOpen <;> simp [h, hideUnreadBadge]
  have hc : w.close.isOpen = false := by
    unfold close
    cases h : w.isOpen <;> simp [h, closeWidget]
  have hoo : ∀ v : CampusAIChatWidget, v.isOpen = true → v.openWidget = v := by
    intro v hv
    simp [openWidget, hv]
  have hcc : ∀ v : CampusAIChatWidget, v.isOpen = false → v.close = v := by
    intro v hv
    simp [close, hv]
  exact ⟨ho, hc, hoo _ ho, hcc _ hc, hoo w, hcc w⟩

/-- C15, witness: `open` on an opened widget and `close` on a fresh (closed)
widget change nothing. -/
theorem open_close_idempotent_witness :
    (create {} "campus.example").openWidget.isOpen = true ∧
    (create {} "campus.example").openWidget.openWidget =
      (create {} "campus.example").openWidget ∧
    (create {} "campus.example").isOpen = false ∧
    (create {} "campus.example").close = create {} "campus.example" :=
  ⟨by decide,
   (open_close_idempotent (create {} "campus.example").openWidget).2.2.2.2.1 (by decide),
   by decide,
   (open_close_idempotent (create {} "campus.example")).2.2.2.2.2 (by decide)⟩

/-- C16.  For every configuration of the caller, each key of `config` holds the
value the caller supplied, whatever it is (the empty string, `undefined` and
`null` included), and, when the caller omitted the key, its default:
`http://localhost:8000/api/v1`, `light`, `bottom-right`, `en`, and `null` for
`welcomeMessage`; the initial `currentLanguage` is the merged language. -/
theorem create_config (config : CallerConfig) (hostname : String) :
    (create config hostname).config =
      { apiBaseUrl := config.apiBaseUrl.getD (JsValue.str "http://localhost:8000/api/v1")
        theme := config.theme.getD (JsValue.str "light")
        position := config.position.getD (JsValue.str "bottom-right")
        language := config.language.getD (JsValue.str "en")
        welcomeMessage := config.welcomeMessage.getD JsValue.null } ∧
    (create config hostname).currentLanguage = (create config hostname).config.language ∧
    (create config hostname).currentLanguage = config.language.getD (JsValue.str "en") ∧
    (create { config with language := some (JsValue.str "") } hostname).config.language =
      JsValue.str "" ∧
    (create { config with language := some JsValue.undefined } hostname).config.language =
      JsValue.undefined ∧
    (create { config with language := some JsValue.undefined } hostname).currentLanguage =
      JsValue.undefined ∧
    (create { config with language := some JsValue.null } hostname).config.language =
      JsValue.null ∧
    (create { config with language := none } hostname).config.language =
      JsValue.str "en" := by
  have hk : ∀ (s : Option JsValue) (d : JsValue), mergedKey s d = s.getD d := by
    intro s d
    cases s <;> simp [mergedKey, jsOrValue, jsTruthyString]
  simp [create, hk]

/-- C17, counterexample.  A widget built with the welcome message
`Welcome to Campus X` shows the built-in greeting. -/
theorem create_ignores_welcomeMessage :
    (create { welcomeMessage := some (JsValue.str "Welcome to Campus X") }
        "campus.example").welcomeText =
      "Hello! I'm here to help with your campus queries. Ask me about fees, admissions, schedules, and more!" ∧
    (create { welcomeMessage := some (JsValue.str "Welcome to Campus X") }
        "campus.example").welcomeText ≠
      "Welcome to Campus X" := by
  decide

/-- C17, amended.  For every configuration, with or without a welcome message,
the greeting the widget shows after construction is the built-in greeting of
the markup; the welcome message of the caller is only stored in `config`. -/
theorem create_welcomeText (config : CallerConfig) (hostname : String) :
    (create config hostname).welcomeText =
      "Hello! I'm here to help with your campus queries. Ask me about fees, admissions, schedules, and more!" ∧
    (create config hostname).config.welcomeMessage =
      config.welcomeMessage.getD JsValue.null := by
  refine ⟨rfl, ?_⟩
  cases h : config.welcomeMessage <;> simp [create, mergedKey, jsOrValue, jsTruthyString, h]

/-! ## Lemmas on the history -/

theorem sendMessageResume_messageHistory (w : CampusAIChatWidget)
    (outcome : FetchOutcome ChatResponse) (now now2 : Nat) :
    ∃ new : List ChatMessage,
      (w.sendMessageResume outcome now now2).messageHistory = w.messageHistory ++ new ∧
      new ≠ [] ∧ ∀ m ∈ new, m.sender = Sender.bot := by
  rcases outcome with _ | ⟨status, _ | data⟩
  · exact ⟨[ChatMessage.mk Sender.bot connectionErrorText now { isError := some true }],
      by simp [sendMessageResume, hideTypingIndicator, sendMessageCatch], by simp, by simp⟩
  · exact ⟨[ChatMessage.mk Sender.bot connectionErrorText now { isError := some true }],
      by simp [sendMessageResume, hideTypingIndicator, sendMessageCatch], by simp, by simp⟩
  · cases hok : responseOk status
    · exact ⟨[ChatMessage.mk Sender.bot apiErrorText now { isError := some true }],
        by simp [sendMessageResume, hideTypingIndicator, hok], by simp, by simp⟩
    · refine ⟨ChatMessage.mk Sender.bot data.response now
          { confidence := data.confidence, source := data.source,
            suggestions := data.suggestions } ::
          (if jsTruthyBool data.escalate then
            [ChatMessage.mk Sender.bot escalatedText now2 {}] else []), ?_, by simp, ?_⟩
      · simp [sendMessageResume, hideTypingIndicator, hok, sendMessageSuccess_messageHistory]
      · intro m hm
        by_cases he : jsTruthyBool data.escalate = true <;> simp [he] at hm
        · rcases hm with rfl | rfl <;> rfl
        · rw [hm]

theorem escalateToHumanStart_messageHistory (w : CampusAIChatWidget) (now : Nat) :
    ∃ new : List ChatMessage,
      (w.escalateToHumanStart now).messageHistory = w.messageHistory ++ new := by
  unfold escalateToHumanStart
  cases jsTruthyString w.conversationId
  · exact ⟨[ChatMessage.mk Sender.bot startConversationFirstText now {}], by simp⟩
  · exact ⟨[], by simp [callAPI]⟩

theorem escalateToHumanResume_messageHistory (w : CampusAIChatWidget)
    (outcome : FetchOutcome EscalateResponse) (now : Nat) :
    ∃ m : ChatMessage,
      (w.escalateToHumanResume outcome now).messageHistory = w.messageHistory ++ [m] ∧
      m.sender = Sender.bot := by
  rcases outcome with _ | ⟨status, _ | data⟩
  · exact ⟨ChatMessage.mk Sender.bot escalationFailedText now {},
      by simp [escalateToHumanResume], rfl⟩
  · exact ⟨ChatMessage.mk Sender.bot escalationFailedText now {},
      by simp [escalateToHumanResume], rfl⟩
  · cases hok : responseOk status
    · exact ⟨ChatMessage.mk Sender.bot escalationFailedText now {},
        by simp [escalateToHumanResume, hok], rfl⟩
    · exact ⟨ChatMessage.mk Sender.bot data.message now {},
        by simp [escalateToHumanResume, hok], rfl⟩

theorem toggleWidget_messageHistory (w : CampusAIChatWidget) :
    w.toggleWidget.messageHistory = w.messageHistory := by
  unfold toggleWidget
  cases w.isOpen <;> simp [closeWidget, hideUnreadBadge]

theorem openWidget_messageHistory (w : CampusAIChatWidget) :
    w.openWidget.messageHistory = w.messageHistory := by
  unfold openWidget
  cases w.isOpen <;> simp [toggleWidget_messageHistory]

theorem onKeydown_messageHistory (w : CampusAIChatWidget) (altKey : Bool) (key : String) :
    (w.onKeydown altKey key).messageHistory = w.messageHistory := by
  unfold onKeydown
  by_cases h1 : (altKey && key == "c") = true
  · by_cases h2 : (key == "Escape" && w.toggleWidget.isOpen) = true <;>
      simp [h1, h2, closeWidget, toggleWidget_messageHistory]
  · by_cases h2 : (key == "Escape" && w.isOpen) = true <;>
      simp [h1, h2, closeWidget]

/-- Every event leaves the history it found and only adds entries at its end. -/
theorem step_messageHistory (w : CampusAIChatWidget) (e : Event) :
    ∃ new : List ChatMessage, (step w e).messageHistory = w.messageHistory ++ new := by
  cases e with
  | sendMessage now text =>
    by_cases h : resolveMessage w text = ""
    · exact ⟨[], by simp [step, sendMessageStart_empty w now text h]⟩
    · exact ⟨_, sendMessageStart_messageHistory w now text h⟩
  | chatSettled outcome now now2 =>
    obtain ⟨new, h, _⟩ := sendMessageResume_messageHistory w outcome now now2
    exact ⟨new, h⟩
  | escalateToHuman now => exact escalateToHumanStart_messageHistory w now
  | escalateSettled outcome now =>
    obtain ⟨m, h, _⟩ := escalateToHumanResume_messageHistory w outcome now
    exact ⟨[m], h⟩
  | changeLanguage language => exact ⟨[], by simp [step, changeLanguage, loadLanguage]⟩
  | languageSelect value =>
    exact ⟨[], by simp [step, onLanguageSelect, changeLanguage, loadLanguage]⟩
  | openWidget => exact ⟨[], by simp [step, openWidget_messageHistory]⟩
  | close =>
    refine ⟨[], ?_⟩
    simp only [step, close]
    cases w.isOpen <;> simp [closeWidget]
  | toggleWidget => exact ⟨[], by simp [step, toggleWidget_messageHistory]⟩
  | closeWidget => exact ⟨[], by simp [step, closeWidget]⟩
  | minimizeWidget =>
    exact ⟨[], by simp [step, minimizeWidget, closeWidget, showUnreadBadge]⟩
  | keydown altKey key => exact ⟨[], by simp [step, onKeydown_messageHistory]⟩
  | input value => exact ⟨[], by simp [step, onInput]⟩
  | sendPredefinedMessage =>
    refine ⟨[], ?_⟩
    simp only [step, sendPredefinedMessageStart]
    cases w.isOpen <;> simp [openWidget_messageHistory]

theorem run_messageHistory (w : CampusAIChatWidget) (es : List Event) :
    ∃ new : List ChatMessage, (run w es).messageHistory = w.messageHistory ++ new := by
  induction es generalizing w with
  | nil => exact ⟨[], by simp [run_nil]⟩
  | cons e es ih =>
    obtain ⟨new1, h1⟩ := step_messageHistory w e
    obtain ⟨new2, h2⟩ := ih (step w e)
    exact ⟨new1 ++ new2, by rw [run_cons, h2, h1, List.append_assoc]⟩

/-- C18.  The history is append-only and ordered by insertion: every event, and
so every sequence of events and every complete `sendMessage` and
`escalateToHuman`, leaves the history it found as an initial segment of the
history it produces; `getConversationHistory` returns the history, which is
empty after construction and to which `addMessage` adds its message as the
last entry. -/
theorem messageHistory_append_only (w : CampusAIChatWidget) :
    (∀ e : Event, w.messageHistory <+: (step w e).messageHistory) ∧
    (∀ es : List Event, w.messageHistory <+: (run w es).messageHistory) ∧
    (∀ (text : Option String) (now0 : Nat) (outcome : FetchOutcome ChatResponse)
        (now1 now2 : Nat),
      w.messageHistory <+: (w.sendMessage text now0 outcome now1 now2).messageHistory) ∧
    (∀ (now0 : Nat) (outcome : FetchOutcome EscalateResponse) (now1 : Nat),
      w.messageHistory <+: (w.escalateToHuman now0 outcome now1).messageHistory) ∧
    w.getConversationHistory = w.messageHistory ∧
    (∀ (config : CallerConfig) (hostname : String),
      (create config hostname).getConversationHistory = []) ∧
    (∀ (now : Nat) (sender : Sender) (text : JsValue) (metadata : Metadata),
      (w.addMessage now sender text metadata).getConversationHistory =
        w.getConversationHistory ++ [ChatMessage.mk sender text now metadata]) := by
  refine ⟨?_, ?_, ?_, ?_, rfl, fun _ _ => rfl, ?_⟩
  · intro e
    obtain ⟨new, h⟩ := step_messageHistory w e
    exact ⟨new, h.symm⟩
  · intro es
    obtain ⟨new, h⟩ := run_messageHistory w es
    exact ⟨new, h.symm⟩
  · intro text now0 outcome now1 now2
    by_cases h : resolveMessage w text = ""
    · have hs : w.sendMessage text now0 outcome now1 now2 =
          run w [Event.sendMessage now0 text] := by
        simp [sendMessage, h, run, step]
      obtain ⟨new, hn⟩ := run_messageHistory w [Event.sendMessage now0 text]
      exact ⟨new, by rw [hs, hn]⟩
    · have hs : w.sendMessage text now0 outcome now1 now2 =
          run w [Event.sendMessage now0 text, Event.chatSettled outcome now1 now2] := by
        simp [sendMessage, h, run, step]
      obtain ⟨new, hn⟩ := run_messageHistory w
        [Event.sendMessage now0 text, Event.chatSettled outcome now1 now2]
      exact ⟨new, by rw [hs, hn]⟩
  · intro now0 outcome now1
    cases hc : jsTruthyString w.conversationId
    · have hs : w.escalateToHuman now0 outcome now1 =
          run w [Event.escalateToHuman now0] := by
        simp [escalateToHuman, hc, run, step]
      obtain ⟨new, hn⟩ := run_messageHistory w [Event.escalateToHuman now0]
      exact ⟨new, by rw [hs, hn]⟩
    · have hs : w.escalateToHuman now0 outcome now1 =
          run w [Event.escalateToHuman now0, Event.escalateSettled outcome now1] := by
        simp [escalateToHuman, hc, run, step]
      obtain ⟨new, hn⟩ := run_messageHistory w
        [Event.escalateToHuman now0, Event.escalateSettled outcome now1]
      exact ⟨new, by rw [hs, hn]⟩
  · intro now sender text metadata
    simp [getConversationHistory]

/-! ## Lemmas on exceptions -/

/-- On the outcomes of `FetchOutcome` the statement `try ... catch ... finally`
computes what `sendMessageResume` computes. -/
theorem sendMessageSettle_toRaw (w : CampusAIChatWidget)
    (outcome : FetchOutcome ChatResponse) (now now2 : Nat) :
    sendMessageSettle w (toRaw outcome) now now2 =
      Except.ok (w.sendMessageResume outcome now now2) := by
  rcases outcome with _ | ⟨status, _ | data⟩
  · simp [sendMessageSettle, sendMessageTry, toRaw, awaitFetch, sendMessageResume]
  · simp [sendMessageSettle, sendMessageTry, toRaw, awaitFetch, awaitJson, sendMessageResume]
  · cases hok : responseOk status <;>
      simp [sendMessageSettle, sendMessageTry, toRaw, awaitFetch, awaitJson, readFields,
        sendMessageResume, hok]

theorem sendMessageAsync_toRaw (w : CampusAIChatWidget) (text : Option String)
    (now0 : Nat) (outcome : FetchOutcome ChatResponse) (now1 now2 : Nat) :
    w.sendMessageAsync text now0 (toRaw outcome) now1 now2 =
      Except.ok (w.sendMessage text now0 outcome now1 now2) := by
  unfold sendMessageAsync sendMessage
  by_cases h : resolveMessage w text = ""
  · simp [h]
  · simp [h, sendMessageSettle_toRaw]

theorem escalateToHumanAsync_toRaw (w : CampusAIChatWidget) (now0 : Nat)
    (outcome : FetchOutcome EscalateResponse) (now1 : Nat) :
    w.escalateToHumanAsync now0 (toRaw outcome) now1 =
      Except.ok (w.escalateToHuman now0 outcome now1) := by
  unfold escalateToHumanAsync escalateToHuman
  cases hc : jsTruthyString w.conversationId
  · simp
  · rcases outcome with _ | ⟨status, _ | data⟩
    · simp [escalateToHumanTry, toRaw, awaitFetch, escalateToHumanResume,
        escalateToHumanCatch]
    · simp [escalateToHumanTry, toRaw, awaitFetch, awaitJson, escalateToHumanResume,
        escalateToHumanCatch]
    · cases hok : responseOk status <;>
        simp [escalateToHumanTry, toRaw, awaitFetch, awaitJson, readFields,
          escalateToHumanResume, hok]

/-- The statement `try ... catch ... finally` of `sendMessage` ends normally on
every outcome; it leaves at least one more message, bot messages only; and an
outcome that is a failure leaves exactly one more message, a bot message
marked as an error. -/
theorem sendMessageSettle_ok (w : CampusAIChatWidget) (o : RawOutcome ChatResponse)
    (now now2 : Nat) :
    ∃ w1 : CampusAIChatWidget, sendMessageSettle w o now now2 = Except.ok w1 ∧
      (∃ new : List ChatMessage, w1.messageHistory = w.messageHistory ++ new ∧
        new ≠ [] ∧ ∀ m ∈ new, m.sender = Sender.bot) ∧
      (o.succeeded = false → ∃ m : ChatMessage,
        w1.messageHistory = w.messageHistory ++ [m] ∧ m.sender = Sender.bot ∧
        m.metadata.isError = some true) := by
  have hcatch : ∃ m : ChatMessage,
      (w.sendMessageCatch now).hideTypingIndicator.messageHistory =
        w.messageHistory ++ [m] ∧ m.sender = Sender.bot ∧
      m.metadata.isError = some true :=
    ⟨ChatMessage.mk Sender.bot connectionErrorText now { isError := some true },
      by simp [hideTypingIndicator, sendMessageCatch], rfl, rfl⟩
  have helse : ∃ m : ChatMessage,
      (w.addMessage now Sender.bot apiErrorText
          { isError := some true }).hideTypingIndicator.messageHistory =
        w.messageHistory ++ [m] ∧ m.sender = Sender.bot ∧
      m.metadata.isError = some true :=
    ⟨ChatMessage.mk Sender.bot apiErrorText now { isError := some true },
      by simp [hideTypingIndicator], rfl, rfl⟩
  have hone : ∀ v : CampusAIChatWidget,
      (∃ m : ChatMessage, v.messageHistory = w.messageHistory ++ [m] ∧
        m.sender = Sender.bot ∧ m.metadata.isError = some true) →
      ∃ new : List ChatMessage, v.messageHistory = w.messageHistory ++ new ∧
        new ≠ [] ∧ ∀ m ∈ new, m.sender = Sender.bot := by
    rintro v ⟨m, hm, hs, _⟩
    exact ⟨[m], hm, by simp, by simpa using hs⟩
  rcases o with _ | ⟨status, _ | _ | data⟩
  · exact ⟨(w.sendMessageCatch now).hideTypingIndicator,
      by simp [sendMessageSettle, sendMessageTry, awaitFetch], hone _ hcatch, fun _ => hcatch⟩
  · exact ⟨(w.sendMessageCatch now).hideTypingIndicator,
      by simp [sendMessageSettle, sendMessageTry, awaitFetch, awaitJson], hone _ hcatch,
      fun _ => hcatch⟩
  · cases hok : responseOk status
    · exact ⟨(w.addMessage now Sender.bot apiErrorText
          { isError := some true }).hideTypingIndicator,
        by simp [sendMessageSettle, sendMessageTry, awaitFetch, awaitJson, hok],
        hone _ helse, fun _ => helse⟩
    · exact ⟨(w.sendMessageCatch now).hideTypingIndicator,
        by simp [sendMessageSettle, sendMessageTry, awaitFetch, awaitJson, hok, readFields],
        hone _ hcatch, fun _ => hcatch⟩
  · cases hok : responseOk status
    · exact ⟨(w.addMessage now Sender.bot apiErrorText
          { isError := some true }).hideTypingIndicator,
        by simp [sendMessageSettle, sendMessageTry, awaitFetch, awaitJson, hok],
        hone _ helse, fun _ => helse⟩
    · refine ⟨(w.sendMessageSuccess data now now2).hideTypingIndicator,
        by simp [sendMessageSettle, sendMessageTry, awaitFetch, awaitJson, hok, readFields],
        ?_, fun hs => ?_⟩
      · refine ⟨ChatMessage.mk Sender.bot data.response now
            { confidence := data.confidence, source := data.source,
              suggestions := data.suggestions } ::
            (if jsTruthyBool data.escalate then
              [ChatMessage.mk Sender.bot escalatedText now2 {}] else []), ?_, by simp, ?_⟩
        · simp [hideTypingIndicator, sendMessageSuccess_messageHistory]
        · intro m hm
          by_cases he : jsTruthyBool data.escalate = true <;> simp [he] at hm
          · rcases hm with rfl | rfl <;> rfl
          · rw [hm]
      · simp [RawOutcome.succeeded, hok] at hs

/-- The method `escalateToHuman` ends normally on every outcome once the guard
on `conversationId` has passed; it leaves exactly one more message, a bot
message, which after a failure has the fixed failure text. -/
theorem escalateToHumanSettle_ok (w : CampusAIChatWidget)
    (o : RawOutcome EscalateResponse) (now : Nat) :
    ∃ w1 : CampusAIChatWidget,
      (match escalateToHumanTry w o now with
        | Except.ok w2 => Except.ok w2
        | Except.error _ => Except.ok (w.escalateToHumanCatch now) :
        Except JsError CampusAIChatWidget) = Except.ok w1 ∧
      ∃ m : ChatMessage,
        w1.messageHistory = w.messageHistory ++ [m] ∧ m.sender = Sender.bot ∧
        (o.succeeded = false → m.text = JsValue.str escalationFailedText) := by
  have hcatch : ∃ m : ChatMessage,
      (w.escalateToHumanCatch now).messageHistory = w.messageHistory ++ [m] ∧
      m.sender = Sender.bot ∧
      (o.succeeded = false → m.text = JsValue.str escalationFailedText) :=
    ⟨ChatMessage.mk Sender.bot escalationFailedText now {},
      by simp [escalateToHumanCatch], rfl, fun _ => rfl⟩
  have helse : ∃ m : ChatMessage,
      (w.addMessage now Sender.bot escalationFailedText {}).messageHistory =
        w.messageHistory ++ [m] ∧
      m.sender = Sender.bot ∧
      (o.succeeded = false → m.text = JsValue.str escalationFailedText) :=
    ⟨ChatMessage.mk Sender.bot escalationFailedText now {}, by simp, rfl, fun _ => rfl⟩
  rcases o with _ | ⟨status, _ | _ | data⟩
  · exact ⟨w.escalateToHumanCatch now, by simp [escalateToHumanTry, awaitFetch], hcatch⟩
  · exact ⟨w.escalateToHumanCatch now, by simp [escalateToHumanTry, awaitFetch, awaitJson],
      hcatch⟩
  · cases hok : responseOk status
    · exact ⟨w.addMessage now Sender.bot escalationFailedText {},
        by simp [escalateToHumanTry, awaitFetch, awaitJson, hok], helse⟩
    · exact ⟨w.escalateToHumanCatch now,
        by simp [escalateToHumanTry, awaitFetch, awaitJson, hok, readFields], hcatch⟩
  · cases hok : responseOk status
    · exact ⟨w.addMessage now Sender.bot escalationFailedText {},
        by simp [escalateToHumanTry, awaitFetch, awaitJson, hok], helse⟩
    · refine ⟨w.addMessage now Sender.bot data.message {},
        by simp [escalateToHumanTry, awaitFetch, awaitJson, hok, readFields],
        ChatMessage.mk Sender.bot data.message now {}, by simp, rfl, fun hs => ?_⟩
      simp [RawOutcome.succeeded, hok] at hs

/-- The answer `200` with the body `{}`, an object that lacks every field of
the contract: `sendMessage("hi")` on a fresh widget ends normally, the bot
message it appends has the text `undefined` and no error mark, and
`conversationId` and `currentLanguage` become `undefined`. -/
theorem sendMessage_empty_object_body :
    (create {} "campus.example").sendMessageAsync (some "hi") 0
        (RawOutcome.response 200 (RawBody.object {})) 1 2 =
      Except.ok ((create {} "campus.example").sendMessage (some "hi") 0
        (FetchOutcome.response 200 (some {})) 1 2) ∧
    ((create {} "campus.example").sendMessage (some "hi") 0
        (FetchOutcome.response 200 (some {})) 1 2).messageHistory =
      [ChatMessage.mk Sender.user "hi" 0 {},
       ChatMessage.mk Sender.bot JsValue.undefined 1 {}] ∧
    ((create {} "campus.example").sendMessage (some "hi") 0
        (FetchOutcome.response 200 (some {})) 1 2).conversationId = JsValue.undefined ∧
    ((create {} "campus.example").sendMessage (some "hi") 0
        (FetchOutcome.response 200 (some {})) 1 2).currentLanguage = JsValue.undefined :=
  ⟨sendMessageAsync_toRaw (create {} "campus.example") (some "hi") 0
      (FetchOutcome.response 200 (some {})) 1 2,
    by decide, by decide, by decide⟩

/-- C19.  For every outcome of the request (rejection, any status, a body that
is not JSON, the body `null`, an object that lacks any of the expected fields,
an object of the contract), the promises of `sendMessage` and of
`escalateToHuman` are fulfilled, never rejected, although the `try` blocks do
raise an exception on a rejection, on a body that is not JSON and on a 2xx
answer whose body is `null`.  A `sendMessage` that sent something leaves at
least one more message after the user message, bot messages only, and
`escalateToHuman` exactly one more message, a bot message.  Every failure
leaves exactly one more message, a bot message: marked as an error for
`sendMessage`, with one of the two fixed texts for `escalateToHuman`.  On the
outcomes of `FetchOutcome` the fulfilled promises hold the states `sendMessage`
and `escalateToHuman` compute. -/
theorem no_error_reaches_caller (w : CampusAIChatWidget) (text : Option String)
    (now0 : Nat) (o : RawOutcome ChatResponse) (now1 now2 : Nat)
    (oe : RawOutcome EscalateResponse) :
    (∃ w1 : CampusAIChatWidget,
      w.sendMessageAsync text now0 o now1 now2 = Except.ok w1 ∧
      (resolveMessage w text ≠ "" →
        (∃ new : List ChatMessage,
          w1.messageHistory = (w.sendMessageStart now0 text).messageHistory ++ new ∧
          new ≠ [] ∧ ∀ m ∈ new, m.sender = Sender.bot) ∧
        (o.succeeded = false → ∃ m : ChatMessage,
          w1.messageHistory = (w.sendMessageStart now0 text).messageHistory ++ [m] ∧
          m.sender = Sender.bot ∧ m.metadata.isError = some true))) ∧
    (∃ w1 : CampusAIChatWidget,
      w.escalateToHumanAsync now0 oe now1 = Except.ok w1 ∧
      ∃ m : ChatMessage,
        w1.messageHistory = w.messageHistory ++ [m] ∧ m.sender = Sender.bot ∧
        (oe.succeeded = false →
          m.text = JsValue.str escalationFailedText ∨
          m.text = JsValue.str startConversationFirstText)) ∧
    (sendMessageTry w RawOutcome.rejected now1 now2 = Except.error JsError.networkError ∧
      escalateToHumanTry w RawOutcome.rejected now1 =
        Except.error JsError.networkError) ∧
    (∀ status : Nat,
      sendMessageTry w (RawOutcome.response status RawBody.notJson) now1 now2 =
        Except.error JsError.syntaxError ∧
      escalateToHumanTry w (RawOutcome.response status RawBody.notJson) now1 =
        Except.error JsError.syntaxError) ∧
    (∀ status : Nat, responseOk status = true →
      sendMessageTry w (RawOutcome.response status RawBody.jsonNull) now1 now2 =
        Except.error JsError.typeError ∧
      escalateToHumanTry w (RawOutcome.response status RawBody.jsonNull) now1 =
        Except.error JsError.typeError) ∧
    (∀ outcome : FetchOutcome ChatResponse,
      w.sendMessageAsync text now0 (toRaw outcome) now1 now2 =
        Except.ok (w.sendMessage text now0 outcome now1 now2)) ∧
    (∀ outcome : FetchOutcome EscalateResponse,
      w.escalateToHumanAsync now0 (toRaw outcome) now1 =
        Except.ok (w.escalateToHuman now0 outcome now1)) := by
  refine ⟨?_, ?_, ⟨by simp [sendMessageTry, awaitFetch], by simp [escalateToHumanTry, awaitFetch]⟩,
    fun status => ⟨by simp [sendMessageTry, awaitFetch, awaitJson],
      by simp [escalateToHumanTry, awaitFetch, awaitJson]⟩,
    fun status hok => ⟨by simp [sendMessageTry, awaitFetch, awaitJson, readFields, hok],
      by simp [escalateToHumanTry, awaitFetch, awaitJson, readFields, hok]⟩,
    fun outcome => sendMessageAsync_toRaw w text now0 outcome now1 now2,
    fun outcome => escalateToHumanAsync_toRaw w now0 outcome now1⟩
  · unfold sendMessageAsync
    by_cases h : resolveMessage w text = ""
    · exact ⟨w.sendMessageStart now0 text, by simp [h], fun hne => absurd h hne⟩
    · obtain ⟨w1, h1, h2, h3⟩ :=
        sendMessageSettle_ok (w.sendMessageStart now0 text) o now1 now2
      exact ⟨w1, by simp [h, h1], fun _ => ⟨h2, h3⟩⟩
  · unfold escalateToHumanAsync
    cases hc : jsTruthyString w.conversationId
    · exact ⟨w.escalateToHumanStart now0, by simp,
        ChatMessage.mk Sender.bot startConversationFirstText now0 {},
        by simp [escalateToHumanStart, hc], rfl, fun _ => Or.inr rfl⟩
    · obtain ⟨w1, h1, m, hm1, hm2, hm3⟩ :=
        escalateToHumanSettle_ok (w.escalateToHumanStart now0) oe now1
      have hh : (w.escalateToHumanStart now0).messageHistory = w.messageHistory := by
        simp [escalateToHumanStart, hc, callAPI]
      exact ⟨w1, by simpa using h1, m, by rw [hm1, hh], hm2, fun hs => Or.inl (hm3 hs)⟩

/-- C19, witness: `sendMessage("hi")` answered with status 200 and the body
`null`, and `escalateToHuman` on a fresh widget with a rejected request. -/
theorem no_error_reaches_caller_witness :
    (∃ w1 : CampusAIChatWidget,
      (create {} "campus.example").sendMessageAsync (some "hi") 0
        (RawOutcome.response 200 RawBody.jsonNull) 1 2 = Except.ok w1 ∧
      ∃ m : ChatMessage,
        w1.messageHistory =
          ((create {} "campus.example").sendMessageStart 0 (some "hi")).messageHistory ++ [m] ∧
        m.sender = Sender.bot ∧ m.metadata.isError = some true) ∧
    (∃ w1 : CampusAIChatWidget,
      (create {} "campus.example").escalateToHumanAsync 0 RawOutcome.rejected 1 =
        Except.ok w1 ∧
      ∃ m : ChatMessage,
        w1.messageHistory = (create {} "campus.example").messageHistory ++ [m] ∧
        m.sender = Sender.bot ∧
        (m.text = JsValue.str escalationFailedText ∨
          m.text = JsValue.str startConversationFirstText)) ∧
    sendMessageTry (create {} "campus.example")
        (RawOutcome.response 200 RawBody.jsonNull) 1 2 =
      Except.error JsError.typeError := by
  obtain ⟨⟨w1, h1, h2⟩, ⟨w2, h3, m, h4, h5, h6⟩, _, _, h7, _, _⟩ :=
    no_error_reaches_caller (create {} "campus.example") (some "hi") 0
      (RawOutcome.response 200 RawBody.jsonNull) 1 2 RawOutcome.rejected
  exact ⟨⟨w1, h1, (h2 (by decide)).2 (by decide)⟩,
    ⟨w2, h3, m, h4, h5, h6 (by decide)⟩, (h7 200 (by decide)).1⟩

/-! ## Lemmas on the chips -/

theorem addMessage_suggestionChips (w : CampusAIChatWidget) (now : Nat)
    (sender : Sender) (text : JsValue) (m : Metadata) :
    (w.addMessage now sender text m).suggestionChips =
      match m.suggestions with
      | some l => if l.length > 0 then l.map (fun s => SuggestionChip.mk s s)
        else w.suggestionChips
      | none => w.suggestionChips := by
  unfold addMessage
  rcases hm : m.suggestions with _ | l
  · simp
  · by_cases hl : l.length > 0 <;> simp [hl, updateSuggestions]

theorem sendMessageStart_suggestionChips (w : CampusAIChatWidget) (now : Nat)
    (text : Option String) :
    (w.sendMessageStart now text).suggestionChips = w.suggestionChips := by
  unfold sendMessageStart
  by_cases h : resolveMessage w text = "" <;>
    simp [h, callAPI, showTypingIndicator, addMessage_suggestionChips]

theorem sendMessageSuccess_suggestionChips (w : CampusAIChatWidget)
    (data : ChatResponse) (now now2 : Nat) :
    (w.sendMessageSuccess data now now2).suggestionChips =
      match data.suggestions with
      | some l => if l.length > 0 then l.map (fun s => SuggestionChip.mk s s)
        else w.suggestionChips
      | none => w.suggestionChips := by
  unfold sendMessageSuccess
  by_cases hl : data.detected_language = w.currentLanguage <;>
    by_cases he : jsTruthyBool data.escalate = true <;>
    simp [hl, he, handleEscalation, setLanguageSelect, addMessage_suggestionChips]

theorem onChipClick_nonempty (v : CampusAIChatWidget) (now : Nat) (c : SuggestionChip)
    (hc : c.dataText ≠ "") :
    (v.onChipClick now c).messageHistory =
      v.messageHistory ++ [ChatMessage.mk Sender.user c.dataText now {}] ∧
    (v.onChipClick now c).requests = v.requests ++ [chatRequest v c.dataText] := by
  have hr : resolveMessage v (some c.dataText) = c.dataText :=
    resolveMessage_some v c.dataText hc
  have h : resolveMessage v (some c.dataText) ≠ "" := by rw [hr]; exact hc
  unfold onChipClick
  rw [sendMessageStart_messageHistory v now _ h, sendMessageStart_requests v now _ h, hr]
  exact ⟨rfl, rfl⟩

theorem onChipClick_empty (v : CampusAIChatWidget) (now : Nat) (c : SuggestionChip)
    (hc : c.dataText = "") :
    (v.onChipClick now c).messageHistory =
      if jsTrim v.inputValue = "" then v.messageHistory
      else v.messageHistory ++ [ChatMessage.mk Sender.user (jsTrim v.inputValue) now {}] := by
  have hr : resolveMessage v (some c.dataText) = jsTrim v.inputValue := by
    simp [resolveMessage, jsOrString, hc]
  unfold onChipClick
  by_cases h : jsTrim v.inputValue = ""
  · rw [sendMessageStart_empty v now _ (by rw [hr]; exact h)]
    simp [h]
  · rw [sendMessageStart_messageHistory v now _ (by rw [hr]; exact h), hr]
    simp [h]

/-- C20, counterexample.  A 2xx answer whose suggestions are the non-empty list
`[""]` leaves the single chip with the empty text.  A click on that chip does
not submit the chip's text: with an empty text field it changes nothing, and
with `hello` in the field it records and sends `hello`. -/
theorem suggestion_chip_with_empty_text :
    ((create {} "campus.example").sendMessage (some "hi") 0
        (FetchOutcome.response 200
          (some { conversation_id := "c1", response := "Pick one",
                  suggestions := some [""], detected_language := "en" })) 1 2).suggestionChips =
      [SuggestionChip.mk "" ""] ∧
    ((create {} "campus.example").sendMessage (some "hi") 0
        (FetchOutcome.response 200
          (some { conversation_id := "c1", response := "Pick one",
                  suggestions := some [""], detected_language := "en" })) 1 2).onChipClick 3 (SuggestionChip.mk "" "") =
      (create {} "campus.example").sendMessage (some "hi") 0
        (FetchOutcome.response 200
          (some { conversation_id := "c1", response := "Pick one",
                  suggestions := some [""], detected_language := "en" })) 1 2 ∧
    ((((create {} "campus.example").sendMessage (some "hi") 0
        (FetchOutcome.response 200
          (some { conversation_id := "c1", response := "Pick one",
                  suggestions := some [""], detected_language := "en" })) 1 2).onInput "hello").onChipClick 3
        (SuggestionChip.mk "" "")).messageHistory.getLast? =
      some (ChatMessage.mk Sender.user "hello" 3 {}) ∧
    ((((create {} "campus.example").sendMessage (some "hi") 0
        (FetchOutcome.response 200
          (some { conversation_id := "c1", response := "Pick one",
                  suggestions := some [""], detected_language := "en" })) 1 2).onInput "hello").onChipClick 3
        (SuggestionChip.mk "" "")).requests.getLast? =
      some (Request.mk "http://localhost:8000/api/v1/chat/message" "POST"
        (RequestBody.chat
          { message := "hello", conversation_id := JsValue.str "c1", platform := "web",
            language := JsValue.str "en", website_domain := "campus.example" })) := by
  decide

/-- C20, amended.  After a `sendMessage` answered with a 2xx status and a parsed
body whose `suggestions` is a non-empty list, the chips are exactly that list,
in its order, each chip carrying its suggestion as data text and as label.  A
click on a chip whose text is not empty submits that text: it records the user
message with exactly that text and issues the request that carries it.  A
click on a chip whose text is empty submits the trimmed content of the text
field, or nothing when that is empty.  When the suggestions are absent or
empty the chips are left as they were, and so they are by the user message
and by every error message (rejection, body that is not JSON, non-2xx
status). -/
theorem suggestion_chips_follow_answer (w : CampusAIChatWidget) (text : Option String)
    (now0 now1 now2 : Nat) (h : resolveMessage w text ≠ "") :
    (∀ (status : Nat) (data : ChatResponse) (l : List String),
      responseOk status = true → data.suggestions = some l → l ≠ [] →
      (w.sendMessage text now0 (FetchOutcome.response status (some data)) now1
          now2).suggestionChips = l.map (fun s => SuggestionChip.mk s s)) ∧
    (∀ (v : CampusAIChatWidget) (now : Nat) (c : SuggestionChip), c.dataText ≠ "" →
      (v.onChipClick now c).messageHistory =
        v.messageHistory ++ [ChatMessage.mk Sender.user c.dataText now {}] ∧
      (v.onChipClick now c).requests = v.requests ++ [chatRequest v c.dataText]) ∧
    (∀ (v : CampusAIChatWidget) (now : Nat) (c : SuggestionChip), c.dataText = "" →
      (v.onChipClick now c).messageHistory =
        if jsTrim v.inputValue = "" then v.messageHistory
        else v.messageHistory ++
          [ChatMessage.mk Sender.user (jsTrim v.inputValue) now {}]) ∧
    (∀ (status : Nat) (data : ChatResponse),
      responseOk status = true → data.suggestions = none ∨ data.suggestions = some [] →
      (w.sendMessage text now0 (FetchOutcome.response status (some data)) now1
          now2).suggestionChips = w.suggestionChips) ∧
    (w.sendMessageStart now0 text).suggestionChips = w.suggestionChips ∧
    (w.sendMessage text now0 FetchOutcome.rejected now1 now2).suggestionChips =
      w.suggestionChips ∧
    (∀ status : Nat,
      (w.sendMessage text now0 (FetchOutcome.response status none) now1
          now2).suggestionChips = w.suggestionChips) ∧
    (∀ (status : Nat) (data : ChatResponse), responseOk status = false →
      (w.sendMessage text now0 (FetchOutcome.response status (some data)) now1
          now2).suggestionChips = w.suggestionChips) := by
  have hs := sendMessageStart_suggestionChips w now0 text
  refine ⟨?_, onChipClick_nonempty, onChipClick_empty, ?_, hs, ?_, ?_, ?_⟩
  · intro status data l hok hsug hl
    have hlen : l.length > 0 := List.length_pos.mpr hl
    rw [sendMessage_nonempty w text now0 _ now1 now2 h, sendMessageResume_ok _ _ _ _ _ hok]
    simp [hideTypingIndicator, sendMessageSuccess_suggestionChips, hsug, hlen]
  · intro status data hok hsug
    rw [sendMessage_nonempty w text now0 _ now1 now2 h, sendMessageResume_ok _ _ _ _ _ hok]
    rcases hsug with hsug | hsug <;>
      simp [hideTypingIndicator, sendMessageSuccess_suggestionChips, hsug, hs]
  · rw [sendMessage_nonempty w text now0 _ now1 now2 h, sendMessageResume_rejected]
    simp [hideTypingIndicator, sendMessageCatch, addMessage_suggestionChips, hs]
  · intro status
    rw [sendMessage_nonempty w text now0 _ now1 now2 h, sendMessageResume_unparsable]
    simp [hideTypingIndicator, sendMessageCatch, addMessage_suggestionChips, hs]
  · intro status data hok
    rw [sendMessage_nonempty w text now0 _ now1 now2 h,
      sendMessageResume_notOk _ _ _ _ _ hok]
    simp [hideTypingIndicator, addMessage_suggestionChips, hs]

/-- C20, witness of the amended statement: the answer with the suggestions
`["Apply now"]` leaves the single chip `Apply now`, and a click on it records
the user message `Apply now` and sends it. -/
theorem suggestion_chips_follow_answer_witness :
    ((create {} "campus.example").sendMessage
        (some "What are the admission requirements?") 0
        (FetchOutcome.response 200
          (some { conversation_id := "c1", response := "Here are the requirements...",
                  suggestions := some ["Apply now"] })) 1 2).suggestionChips =
      ["Apply now"].map (fun s => SuggestionChip.mk s s) ∧
    (((create {} "campus.example").sendMessage
        (some "What are the admission requirements?") 0
        (FetchOutcome.response 200
          (some { conversation_id := "c1", response := "Here are the requirements...",
                  suggestions := some ["Apply now"] })) 1 2).onChipClick 3
        (SuggestionChip.mk "Apply now" "Apply now")).messageHistory =
      ((create {} "campus.example").sendMessage
        (some "What are the admission requirements?") 0
        (FetchOutcome.response 200
          (some { conversation_id := "c1", response := "Here are the requirements...",
                  suggestions := some ["Apply now"] })) 1 2).messageHistory ++
        [ChatMessage.mk Sender.user "Apply now" 3 {}] :=
  ⟨(suggestion_chips_follow_answer (create {} "campus.example")
      (some "What are the admission requirements?") 0 1 2 (by decide)).1 200
      { conversation_id := "c1", response := "Here are the requirements...",
        suggestions := some ["Apply now"] } ["Apply now"] (by decide) rfl (by decide),
    ((suggestion_chips_follow_answer (create {} "campus.example")
      (some "What are the admission requirements?") 0 1 2 (by decide)).2.1
      ((create {} "campus.example").sendMessage
        (some "What are the admission requirements?") 0
        (FetchOutcome.response 200
          (some { conversation_id := "c1", response := "Here are the requirements...",
                  suggestions := some ["Apply now"] })) 1 2) 3
      (SuggestionChip.mk "Apply now" "Apply now") (by decide)).1⟩

/-! ## Lemmas on requests in flight and on the badge -/

theorem toggleWidget_isTyping (w : CampusAIChatWidget) :
    w.toggleWidget.isTyping = w.isTyping := by
  unfold toggleWidget
  cases w.isOpen <;> simp [closeWidget, hideUnreadBadge]

theorem openWidget_isTyping (w : CampusAIChatWidget) :
    w.openWidget.isTyping = w.isTyping := by
  unfold openWidget
  cases w.isOpen <;> simp [toggleWidget_isTyping]

theorem onKeydown_isTyping (w : CampusAIChatWidget) (altKey : Bool) (key : String) :
    (w.onKeydown altKey key).isTyping = w.isTyping := by
  unfold onKeydown
  by_cases h1 : (altKey && key == "c") = true
  · by_cases h2 : (key == "Escape" && w.toggleWidget.isOpen) = true <;>
      simp [h1, h2, closeWidget, toggleWidget_isTyping]
  · by_cases h2 : (key == "Escape" && w.isOpen) = true <;>
      simp [h1, h2, closeWidget]

theorem escalateToHumanResume_isTyping (w : CampusAIChatWidget)
    (outcome : FetchOutcome EscalateResponse) (now : Nat) :
    (w.escalateToHumanResume outcome now).isTyping = w.isTyping := by
  rcases outcome with _ | ⟨status, _ | data⟩
  · simp [escalateToHumanResume]
  · simp [escalateToHumanResume]
  · cases hok : responseOk status <;> simp [escalateToHumanResume, hok]

/-- The flag `isTyping` is written by two events only: a `sendMessage` that
sends anything sets it, the settling of a chat request clears it. -/
theorem step_isTyping (w : CampusAIChatWidget) (e : Event) :
    (step w e).isTyping =
      match e with
      | Event.sendMessage _ text => if resolveMessage w text = "" then w.isTyping else true
      | Event.chatSettled _ _ _ => false
      | _ => w.isTyping := by
  cases e with
  | sendMessage now text =>
    by_cases h : resolveMessage w text = ""
    · simp [step, sendMessageStart_empty w now text h, h]
    · simp [step, sendMessageStart, h, callAPI, showTypingIndicator]
  | chatSettled outcome now now2 => simp [step, sendMessageResume_isTyping]
  | escalateToHuman now =>
    simp only [step, escalateToHumanStart]
    cases jsTruthyString w.conversationId <;> simp [callAPI]
  | escalateSettled outcome now => simp [step, escalateToHumanResume_isTyping]
  | changeLanguage language => simp [step, changeLanguage, loadLanguage]
  | languageSelect value => simp [step, onLanguageSelect, changeLanguage, loadLanguage]
  | openWidget => simp [step, openWidget_isTyping]
  | close =>
    simp only [step, close]
    cases w.isOpen <;> simp [closeWidget]
  | toggleWidget => simp [step, toggleWidget_isTyping]
  | closeWidget => simp [step, closeWidget]
  | minimizeWidget => simp [step, minimizeWidget, closeWidget, showUnreadBadge]
  | keydown altKey key => simp [step, onKeydown_isTyping]
  | input value => simp [step, onInput]
  | sendPredefinedMessage =>
    simp only [step, sendPredefinedMessageStart]
    cases w.isOpen <;> simp [openWidget_isTyping]

/-- C21, counterexample.  Two calls of `sendMessage` followed by the completion
of one request: the sequence is an interleaving of calls and completions, two
requests were issued, one is still in flight, and `isTyping` is false. -/
theorem isTyping_cleared_with_request_in_flight :
    interleaving (create {} "campus.example") 0
      [Event.sendMessage 0 (some "first"),
       Event.sendMessage 1 (some "second"),
       Event.chatSettled (FetchOutcome.response 200
         (some { conversation_id := "c1", response := "Hello" })) 2 3] = true ∧
    (run (create {} "campus.example")
      [Event.sendMessage 0 (some "first"),
       Event.sendMessage 1 (some "second"),
       Event.chatSettled (FetchOutcome.response 200
         (some { conversation_id := "c1", response := "Hello" })) 2 3]).requests.length = 2 ∧
    chatInFlight (create {} "campus.example") 0
      [Event.sendMessage 0 (some "first"),
       Event.sendMessage 1 (some "second"),
       Event.chatSettled (FetchOutcome.response 200
         (some { conversation_id := "c1", response := "Hello" })) 2 3] = 1 ∧
    (run (create {} "campus.example")
      [Event.sendMessage 0 (some "first"),
       Event.sendMessage 1 (some "second"),
       Event.chatSettled (FetchOutcome.response 200
         (some { conversation_id := "c1", response := "Hello" })) 2 3]).isTyping = false := by
  decide

/-- C21, amended.  `isTyping` is one flag: a `sendMessage` that sends anything
sets it, the completion of any chat request clears it, and no other event
writes it.  Hence, for every sequence of events in which at most one chat
request is in flight at a time, `isTyping` is true exactly while that request
is unresolved. -/
theorem isTyping_tracks_single_request (w : CampusAIChatWidget) (n : Nat)
    (es : List Event) (hinv : w.isTyping = true ↔ n = 1)
    (hone : oneAtATime w n es = true) :
    (∀ (v : CampusAIChatWidget) (e : Event),
      (step v e).isTyping =
        match e with
        | Event.sendMessage _ text =>
          if resolveMessage v text = "" then v.isTyping else true
        | Event.chatSettled _ _ _ => false
        | _ => v.isTyping) ∧
    ((run w es).isTyping = true ↔ chatInFlight w n es = 1) := by
  refine ⟨step_isTyping, ?_⟩
  induction es generalizing w n with
  | nil => simpa [run_nil, chatInFlight] using hinv
  | cons e es ih =>
    simp only [oneAtATime, Bool.and_eq_true, decide_eq_true_eq] at hone
    obtain ⟨hn, hrest⟩ := hone
    rw [run_cons]
    simp only [chatInFlight]
    refine ih (step w e) (chatInFlightStep w n e) ?_ hrest
    have hnext : chatInFlightStep w n e ≤ 1 := by
      cases es with
      | nil => simpa [oneAtATime] using hrest
      | cons e2 es2 =>
        simp only [oneAtATime, Bool.and_eq_true, decide_eq_true_eq] at hrest
        exact hrest.1
    rw [step_isTyping]
    cases e with
    | sendMessage now text =>
      by_cases h : resolveMessage w text = ""
      · simpa [chatInFlightStep, h] using hinv
      · simp only [chatInFlightStep, h, if_false] at hnext ⊢
        constructor
        · intro _; omega
        · intro _; trivial
    | chatSettled outcome now now2 =>
      simp only [chatInFlightStep]
      constructor
      · intro hf; exact absurd hf (by simp)
      · intro h1; omega
    | escalateToHuman now => simpa [chatInFlightStep] using hinv
    | escalateSettled outcome now => simpa [chatInFlightStep] using hinv
    | changeLanguage language => simpa [chatInFlightStep] using hinv
    | languageSelect value => simpa [chatInFlightStep] using hinv
    | openWidget => simpa [chatInFlightStep] using hinv
    | close => simpa [chatInFlightStep] using hinv
    | toggleWidget => simpa [chatInFlightStep] using hinv
    | closeWidget => simpa [chatInFlightStep] using hinv
    | minimizeWidget => simpa [chatInFlightStep] using hinv
    | keydown altKey key => simpa [chatInFlightStep] using hinv
    | input value => simpa [chatInFlightStep] using hinv
    | sendPredefinedMessage => simpa [chatInFlightStep] using hinv

/-- C21, witness of the amended statement: a request that completes, then a
second request that is still in flight. -/
theorem isTyping_tracks_single_request_witness :
    (run (create {} "campus.example")
      [Event.sendMessage 0 (some "first"),
       Event.chatSettled FetchOutcome.rejected 1 2,
       Event.openWidget,
       Event.sendMessage 3 (some "second")]).isTyping = true ↔
    chatInFlight (create {} "campus.example") 0
      [Event.sendMessage 0 (some "first"),
       Event.chatSettled FetchOutcome.rejected 1 2,
       Event.openWidget,
       Event.sendMessage 3 (some "second")] = 1 :=
  (isTyping_tracks_single_request (create {} "campus.example") 0
    [Event.sendMessage 0 (some "first"),
     Event.chatSettled FetchOutcome.rejected 1 2,
     Event.openWidget,
     Event.sendMessage 3 (some "second")] (by decide) (by decide)).2

@[simp]
theorem addMessage_unreadBadgeShown (w : CampusAIChatWidget) (now : Nat)
    (sender : Sender) (text : JsValue) (m : Metadata) :
    (w.addMessage now sender text m).unreadBadgeShown = w.unreadBadgeShown := by
  unfold addMessage
  rcases hm : m.suggestions with _ | l
  · simp
  · by_cases hl : l.length > 0 <;> simp [hl, updateSuggestions]

theorem sendMessageStart_isOpen_badge (w : CampusAIChatWidget) (now : Nat)
    (text : Option String) :
    (w.sendMessageStart now text).isOpen = w.isOpen ∧
    (w.sendMessageStart now text).unreadBadgeShown = w.unreadBadgeShown := by
  unfold sendMessageStart
  by_cases h : resolveMessage w text = "" <;> simp [h, callAPI, showTypingIndicator]

theorem sendMessageSuccess_isOpen_badge (w : CampusAIChatWidget)
    (data : ChatResponse) (now now2 : Nat) :
    (w.sendMessageSuccess data now now2).isOpen = w.isOpen ∧
    (w.sendMessageSuccess data now now2).unreadBadgeShown = w.unreadBadgeShown := by
  unfold sendMessageSuccess
  by_cases hl : data.detected_language = w.currentLanguage <;>
    by_cases he : jsTruthyBool data.escalate = true <;>
    simp [hl, he, handleEscalation, setLanguageSelect]

theorem sendMessageResume_isOpen_badge (w : CampusAIChatWidget)
    (outcome : FetchOutcome ChatResponse) (now now2 : Nat) :
    (w.sendMessageResume outcome now now2).isOpen = w.isOpen ∧
    (w.sendMessageResume outcome now now2).unreadBadgeShown = w.unreadBadgeShown := by
  rcases outcome with _ | ⟨status, _ | data⟩
  · simp [sendMessageResume, hideTypingIndicator, sendMessageCatch]
  · simp [sendMessageResume, hideTypingIndicator, sendMessageCatch]
  · cases hok : responseOk status
    · simp [sendMessageResume, hideTypingIndicator, hok]
    · simp [sendMessageResume, hideTypingIndicator, hok, sendMessageSuccess_isOpen_badge]

theorem escalateToHumanStart_isOpen_badge (w : CampusAIChatWidget) (now : Nat) :
    (w.escalateToHumanStart now).isOpen = w.isOpen ∧
    (w.escalateToHumanStart now).unreadBadgeShown = w.unreadBadgeShown := by
  unfold escalateToHumanStart
  cases jsTruthyString w.conversationId <;> simp [callAPI]

theorem escalateToHumanResume_isOpen_badge (w : CampusAIChatWidget)
    (outcome : FetchOutcome EscalateResponse) (now : Nat) :
    (w.escalateToHumanResume outcome now).isOpen = w.isOpen ∧
    (w.escalateToHumanResume outcome now).unreadBadgeShown = w.unreadBadgeShown := by
  rcases outcome with _ | ⟨status, _ | data⟩
  · simp [escalateToHumanResume]
  · simp [escalateToHumanResume]
  · cases hok : responseOk status <;> simp [escalateToHumanResume, hok]

theorem toggleWidget_isOpen_badge (w : CampusAIChatWidget) :
    w.toggleWidget.isOpen = !w.isOpen ∧
    w.toggleWidget.unreadBadgeShown = (w.isOpen && w.unreadBadgeShown) := by
  unfold toggleWidget
  cases h : w.isOpen <;> simp [closeWidget, hideUnreadBadge, h]

theorem openWidget_isOpen_badge (w : CampusAIChatWidget) :
    w.openWidget.isOpen = true ∧
    w.openWidget.unreadBadgeShown = (w.isOpen && w.unreadBadgeShown) := by
  unfold openWidget
  cases h : w.isOpen <;> simp [toggleWidget_isOpen_badge, h]

theorem close_isOpen_badge (w : CampusAIChatWidget) :
    w.close.isOpen = false ∧ w.close.unreadBadgeShown = w.unreadBadgeShown := by
  unfold close
  cases h : w.isOpen <;> simp [closeWidget, h]

theorem onKeydown_isOpen_badge (w : CampusAIChatWidget) (altKey : Bool) (key : String) :
    ((w.isOpen = true → w.unreadBadgeShown = false) →
      (w.onKeydown altKey key).isOpen = true →
      (w.onKeydown altKey key).unreadBadgeShown = false) ∧
    ((w.onKeydown altKey key).unreadBadgeShown = true → w.unreadBadgeShown = true) := by
  unfold onKeydown
  obtain ⟨ht1, ht2⟩ := toggleWidget_isOpen_badge w
  by_cases h1 : (altKey && key == "c") = true
  · by_cases h2 : (key == "Escape" && w.toggleWidget.isOpen) = true
    · simp [h1, h2, closeWidget, ht2]
    · simp only [h1, h2, if_true, if_false, Bool.false_eq_true]
      rw [ht1, ht2]
      cases w.isOpen <;> cases w.unreadBadgeShown <;> simp
  · by_cases h2 : (key == "Escape" && w.isOpen) = true
    · simp [h1, h2, closeWidget]
    · simp [h1, h2]

/-- Every event keeps the badge hidden on an open widget, and no event other
than `minimizeWidget` turns the badge on. -/
theorem step_isOpen_badge (w : CampusAIChatWidget) (e : Event) :
    ((w.isOpen = true → w.unreadBadgeShown = false) →
      (step w e).isOpen = true → (step w e).unreadBadgeShown = false) ∧
    ((step w e).unreadBadgeShown = true →
      w.unreadBadgeShown = true ∨ e = Event.minimizeWidget) := by
  cases e with
  | sendMessage now text =>
    obtain ⟨h1, h2⟩ := sendMessageStart_isOpen_badge w now text
    simp only [step, h1, h2]
    exact ⟨id, Or.inl⟩
  | chatSettled outcome now now2 =>
    obtain ⟨h1, h2⟩ := sendMessageResume_isOpen_badge w outcome now now2
    simp only [step, h1, h2]
    exact ⟨id, Or.inl⟩
  | escalateToHuman now =>
    obtain ⟨h1, h2⟩ := escalateToHumanStart_isOpen_badge w now
    simp only [step, h1, h2]
    exact ⟨id, Or.inl⟩
  | escalateSettled outcome now =>
    obtain ⟨h1, h2⟩ := escalateToHumanResume_isOpen_badge w outcome now
    simp only [step, h1, h2]
    exact ⟨id, Or.inl⟩
  | changeLanguage language =>
    exact ⟨fun h => by simpa [step, changeLanguage, loadLanguage] using h,
      fun h => Or.inl (by simpa [step, changeLanguage, loadLanguage] using h)⟩
  | languageSelect value =>
    exact ⟨fun h => by simpa [step, onLanguageSelect, changeLanguage, loadLanguage] using h,
      fun h => Or.inl
        (by simpa [step, onLanguageSelect, changeLanguage, loadLanguage] using h)⟩
  | openWidget =>
    obtain ⟨h1, h2⟩ := openWidget_isOpen_badge w
    simp only [step, h1, h2]
    cases w.isOpen <;> cases w.unreadBadgeShown <;> simp
  | close =>
    obtain ⟨h1, h2⟩ := close_isOpen_badge w
    simp only [step, h1, h2]
    exact ⟨fun _ h => absurd h (by simp), Or.inl⟩
  | toggleWidget =>
    obtain ⟨h1, h2⟩ := toggleWidget_isOpen_badge w
    simp only [step, h1, h2]
    cases w.isOpen <;> cases w.unreadBadgeShown <;> simp
  | closeWidget =>
    exact ⟨fun _ h => absurd h (by simp [step, closeWidget]),
      fun h => Or.inl (by simpa [step, closeWidget] using h)⟩
  | minimizeWidget =>
    exact ⟨fun _ h => absurd h (by simp [step, minimizeWidget, closeWidget, showUnreadBadge]),
      fun _ => Or.inr rfl⟩
  | keydown altKey key =>
    obtain ⟨h1, h2⟩ := onKeydown_isOpen_badge w altKey key
    exact ⟨h1, fun h => Or.inl (h2 h)⟩
  | input value =>
    exact ⟨fun h => by simpa [step, onInput] using h,
      fun h => Or.inl (by simpa [step, onInput] using h)⟩
  | sendPredefinedMessage =>
    have hs : step w Event.sendPredefinedMessage = if w.isOpen then w else w.openWidget := by
      simp only [step, sendPredefinedMessageStart]
      cases w.isOpen <;> simp
    obtain ⟨h1, h2⟩ := openWidget_isOpen_badge w
    rw [hs]
    by_cases ho : w.isOpen = true
    · rw [if_pos ho]
      exact ⟨id, Or.inl⟩
    · rw [if_neg ho, h1, h2]
      simp [ho]

/-- C22.  In every state reachable from construction, through `open`, `close`,
`toggleWidget`, `closeWidget`, `minimizeWidget`, the keyboard shortcuts and
every other event, the unread badge is hidden whenever `isOpen` is true;
`open` and `toggleWidget` on a closed widget open it with the badge hidden;
the only event that turns the badge on is `minimizeWidget`, which leaves the
widget closed and its window hidden. -/
theorem unread_badge_hidden_while_open (config : CallerConfig) (hostname : String) :
    (∀ es : List Event, (run (create config hostname) es).isOpen = true →
      (run (create config hostname) es).unreadBadgeShown = false) ∧
    (∀ w : CampusAIChatWidget, w.isOpen = false →
      (w.openWidget.isOpen = true ∧ w.openWidget.unreadBadgeShown = false) ∧
      (w.toggleWidget.isOpen = true ∧ w.toggleWidget.unreadBadgeShown = false)) ∧
    (∀ (w : CampusAIChatWidget) (e : Event), w.unreadBadgeShown = false →
      (step w e).unreadBadgeShown = true →
      e = Event.minimizeWidget ∧ (step w e).isOpen = false ∧
        (step w e).chatWindowHidden = true) := by
  refine ⟨?_, ?_, ?_⟩
  · intro es
    suffices h : ∀ w : CampusAIChatWidget, (w.isOpen = true → w.unreadBadgeShown = false) →
        (run w es).isOpen = true → (run w es).unreadBadgeShown = false from
      h (create config hostname) (fun ho => absurd ho (by simp [create]))
    induction es with
    | nil => intro w hw; simpa [run_nil] using hw
    | cons e es ih =>
      intro w hw
      rw [run_cons]
      exact ih (step w e) ((step_isOpen_badge w e).1 hw)
  · intro w hw
    obtain ⟨h1, h2⟩ := openWidget_isOpen_badge w
    obtain ⟨h3, h4⟩ := toggleWidget_isOpen_badge w
    simp [h1, h2, h3, h4, hw]
  · intro w e hb hs
    rcases (step_isOpen_badge w e).2 hs with h | h
    · rw [hb] at h
      exact absurd h (by simp)
    · subst h
      simp [step, minimizeWidget, closeWidget, showUnreadBadge]

/-- C22, witness: a session that opens with the shortcut, minimizes, opens
again and sends a message ends open with the badge hidden. -/
theorem unread_badge_hidden_while_open_witness :
    (run (create {} "campus.example")
      [Event.keydown true "c",
       Event.minimizeWidget,
       Event.openWidget,
       Event.sendMessage 0 (some "hi")]).unreadBadgeShown = false :=
  (unread_badge_hidden_while_open {} "campus.example").1
    [Event.keydown true "c",
     Event.minimizeWidget,
     Event.openWidget,
     Event.sendMessage 0 (some "hi")] (by decide)

end CampusAIChatWidget

namespace App

/-- C23.  The routes `App` declares are `/login`, `/`, `/faqs`,
`/conversations`, `/analytics` and `/settings`.  For each of the five paths
other than `/login` the rendered element is the page inside `Layout` when
`isAuthenticated` is true and a redirect to `/login` when it is false;
`/login` renders `Login` whatever `isAuthenticated` is. -/
theorem protected_routes :
    (∀ b : Bool, (routes b).map Prod.fst =
      ["/login", "/", "/faqs", "/conversations", "/analytics", "/settings"]) ∧
    (∀ (path : String) (page : Element),
      (path, page) ∈
        [("/", Element.Dashboard), ("/faqs", Element.FAQManagement),
         ("/conversations", Element.Conversations), ("/analytics", Element.Analytics),
         ("/settings", Element.Settings)] →
      render true path = some (Element.Layout page) ∧
      render false path = some (Element.Navigate "/login")) ∧
    (∀ b : Bool, render b "/login" = some Element.Login) := by
  refine ⟨by decide, ?_, by decide⟩
  intro path page h
  simp only [List.mem_cons, List.mem_singleton, List.not_mem_nil, or_false,
    Prod.mk.injEq] at h
  rcases h with ⟨rfl, rfl⟩ | ⟨rfl, rfl⟩ | ⟨rfl, rfl⟩ | ⟨rfl, rfl⟩ | ⟨rfl, rfl⟩ <;>
    exact ⟨by decide, by decide⟩

/-- C23, witness: the route `/faqs`. -/
theorem protected_routes_witness :
    render true "/faqs" = some (Element.Layout Element.FAQManagement) ∧
    render false "/faqs" = some (Element.Navigate "/login") :=
  protected_routes.2.1 "/faqs" Element.FAQManagement (by decide)

end App
